import Mathlib

/-!
# Fontana sequencer core: a shallow embedding

This file embeds the core of the Fontana UTXO payment rollup
(`src/fontana/core/...`) in Lean 4 and settles the frozen claims about it.

Conventions of the embedding:
* Python `dict`s become association lists with first-match lookup and
  in-place update semantics (`dictGet` / `dictSet` / `dictDel`).
* SQLite tables become lists of row structures; primary-key violations on
  `INSERT` are modelled as explicit failures.
* Monetary amounts (Python `float`) are modelled as `ℚ`; every concrete
  amount used below is a small dyadic rational on which IEEE-754 double
  arithmetic is exact, so sums and comparisons agree with the source.
* Ed25519 signature verification is a black box in the spec; ledger and
  processor functions are parametrised by a signature oracle
  `sigOk : SignedTransaction → Bool`.
* `hashlib.sha256` is implemented bit-faithfully below over byte lists.
-/

set_option maxRecDepth 2000

/- The Batteries rational operations are `@[irreducible]`, which blocks
`decide`-style evaluation of concrete ledger states; restore default
transparency for them inside this file (the kernel re-checks everything
regardless of reducibility attributes). -/
set_option allowUnsafeReducibility true
attribute [local semireducible] Rat.add Rat.sub Rat.mul Rat.inv Rat.div Rat.blt

namespace Fontana

/-! ## Python dict / assoc-list helpers -/

/-- First-match lookup in an association list (Python `d[k]` / `d.get(k)`). -/
def dictGet {α : Type} [BEq α] {β : Type} (d : List (α × β)) (k : α) : Option β :=
  (d.find? (fun p => p.1 == k)).map (·.2)

/-- Lookup with default (Python `d.get(k, default)`). -/
def dictGetD {α : Type} [BEq α] {β : Type} (d : List (α × β)) (k : α) (v : β) : β :=
  (dictGet d k).getD v

/-- Python `d[k] = v`: replace in place when the key exists, else append. -/
def dictSet {α : Type} [BEq α] {β : Type} (d : List (α × β)) (k : α) (v : β) :
    List (α × β) :=
  if d.any (fun p => p.1 == k) then
    d.map (fun p => if p.1 == k then (k, v) else p)
  else
    d ++ [(k, v)]

/-- Python `del d[k]` (no error when the key is absent; the source guards
its deletes with `if key in ...`). -/
def dictDel {α : Type} [BEq α] {β : Type} (d : List (α × β)) (k : α) :
    List (α × β) :=
  d.filter (fun p => !(p.1 == k))

/-- Python `k in d`. -/
def dictHas {α : Type} [BEq α] {β : Type} (d : List (α × β)) (k : α) : Bool :=
  d.any (fun p => p.1 == k)

/-! ## SHA-256 (`hashlib.sha256`), over byte lists -/

/-- Truncate to a 32-bit word. -/
def m32 (x : Nat) : Nat := x % 4294967296

/-- 32-bit addition. -/
def add32 (a b : Nat) : Nat := m32 (a + b)

/-- 32-bit right rotation. -/
def rotr32 (n x : Nat) : Nat := m32 ((x >>> n) ||| (x <<< (32 - n)))

/-- Bitwise complement in 32 bits. -/
def not32 (x : Nat) : Nat := 4294967295 - x

def shaCh (x y z : Nat) : Nat := (x &&& y) ^^^ (not32 x &&& z)

def shaMaj (x y z : Nat) : Nat := (x &&& y) ^^^ (x &&& z) ^^^ (y &&& z)

def shaS0 (x : Nat) : Nat := rotr32 2 x ^^^ rotr32 13 x ^^^ rotr32 22 x

def shaS1 (x : Nat) : Nat := rotr32 6 x ^^^ rotr32 11 x ^^^ rotr32 25 x

def shas0 (x : Nat) : Nat := rotr32 7 x ^^^ rotr32 18 x ^^^ (x >>> 3)

def shas1 (x : Nat) : Nat := rotr32 17 x ^^^ rotr32 19 x ^^^ (x >>> 10)

/-- The 64 SHA-256 round constants. -/
def shaK : List Nat :=
  [1116352408, 1899447441, 3049323471, 3921009573, 961987163, 1508970993,
   2453635748, 2870763221, 3624381080, 310598401, 607225278, 1426881987,
   1925078388, 2162078206, 2614888103, 3248222580, 3835390401, 4022224774,
   264347078, 604807628, 770255983, 1249150122, 1555081692, 1996064986,
   2554220882, 2821834349, 2952996808, 3210313671, 3336571891, 3584528711,
   113926993, 338241895, 666307205, 773529912, 1294757372, 1396182291,
   1695183700, 1986661051, 2177026350, 2456956037, 2730485921, 2820302411,
   3259730800, 3345764771, 3516065817, 3600352804, 4094571909, 275423344,
   430227734, 506948616, 659060556, 883997877, 958139571, 1322822218,
   1537002063, 1747873779, 1955562222, 2024104815, 2227730452, 2361852424,
   2428436474, 2756734187, 3204031479, 3329325298]

/-- Initial SHA-256 hash state. -/
def shaH0 : List Nat :=
  [1779033703, 3144134277, 1013904242, 2773480762,
   1359893119, 2600822924, 528734635, 1541459225]

/-- Big-endian bytes of `x`, `n` bytes wide. -/
def beBytes : Nat → Nat → List Nat
  | 0, _ => []
  | n + 1, x => beBytes n (x / 256) ++ [x % 256]

/-- SHA-256 message padding. -/
def shaPad (msg : List Nat) : List Nat :=
  let l := msg.length
  let k := (119 - l % 64) % 64
  msg ++ [0x80] ++ List.replicate k 0 ++ beBytes 8 (l * 8)

/-- Turn four big-endian bytes into a 32-bit word. -/
def word32 (b0 b1 b2 b3 : Nat) : Nat := ((b0 * 256 + b1) * 256 + b2) * 256 + b3

/-- Split padded bytes into 16-word big-endian blocks. -/
def shaBlocks : List Nat → List (List Nat)
  | b0 :: b1 :: b2 :: b3 :: rest =>
    match shaBlocks rest with
    | [] => [[word32 b0 b1 b2 b3]]
    | w :: ws => if w.length == 16 then [word32 b0 b1 b2 b3] :: w :: ws
                 else (word32 b0 b1 b2 b3 :: w) :: ws
  | _ => []

/-- Extend the message schedule by `n` words; `win` holds the schedule so
far, most recent word first, so each new word reads the fixed offsets
`i-2, i-7, i-15, i-16` in constant time. -/
def shaExtend : Nat → List Nat → List Nat
  | 0, win => win
  | n + 1, win =>
    shaExtend n
      (m32 (shas1 (win.getD 1 0) + win.getD 6 0 +
            shas0 (win.getD 14 0) + win.getD 15 0) :: win)

/-- The 64-word message schedule of a 16-word block. -/
def shaSchedule (w : List Nat) : List Nat := (shaExtend 48 w.reverse).reverse

/-- One round of the SHA-256 compression function. -/
def shaRound (st : List Nat) (kw : Nat × Nat) : List Nat :=
  match st with
  | [a, b, c, d, e, f, g, h] =>
    let t1 := m32 (h + shaS1 e + shaCh e f g + kw.1 + kw.2)
    let t2 := m32 (shaS0 a + shaMaj a b c)
    [add32 t1 t2, a, b, c, m32 (d + t1), e, f, g]
  | _ => st

/-- Compress one block into the running hash state. -/
def shaCompress (h : List Nat) (block : List Nat) : List Nat :=
  let st := (shaK.zip (shaSchedule block)).foldl shaRound h
  (h.zip st).map (fun p => add32 p.1 p.2)

/-- SHA-256 of a byte list, as 32 bytes. -/
def sha256 (msg : List Nat) : List Nat :=
  let h := (shaBlocks (shaPad msg)).foldl shaCompress shaH0
  (h.map (beBytes 4)).flatten

def hexChar (n : Nat) : Char :=
  "0123456789abcdef".toList.getD n '0'

/-- Lowercase hex string of a byte list (`hexdigest()`). -/
def hexOfBytes (bs : List Nat) : String :=
  String.mk ((bs.map (fun b => [hexChar (b / 16), hexChar (b % 16)])).flatten)

/-- Bytes of an (ASCII) string, as `str.encode()` produces for the
ASCII strings this system hashes. -/
def strBytes (s : String) : List Nat := s.data.map Char.toNat

/-- `hashlib.sha256(s.encode()).hexdigest()`. -/
def sha256Hex (s : String) : String := hexOfBytes (sha256 (strBytes s))

/-- Sanity: SHA-256 of the empty string matches the published digest. -/
theorem sha256_empty :
    sha256Hex "" = "e3b0c44298fc1c149afbf4c8996fb92427ae41e4649b934ca495991b7852b855" := by
  decide

/-- Sanity: SHA-256 of `"abc"` matches the published digest. -/
theorem sha256_abc :
    sha256Hex "abc" = "ba7816bf8f01cfea414140de5dae2223b00361a396177a9cb410ff61f20015ad" := by
  decide

/-! ## Sparse Merkle tree (`core/state_merkle/smt.py`)

Tree paths (Python binary strings like `"0101..."`) are modelled as
`List Char` of `'0'`/`'1'`; node and leaf dicts are association lists. -/

/-- `SparseMerkleTree.EMPTY_NODE_HASH = sha256(b"0").hexdigest()`. -/
def EMPTY_NODE_HASH : String := sha256Hex "0"

/-- The tree state: `nodes` (path → hash), `leaves` (key → value hash),
and the cached `_root_hash`. -/
structure SMT where
  nodes : List (List Char × String)
  leaves : List (String × String)
  rootHash : String
deriving DecidableEq

/-- A fresh `SparseMerkleTree()`. -/
def SMT.empty : SMT := ⟨[], [], EMPTY_NODE_HASH⟩

/-- `_hash_node(left, right) = sha256(f"{left}{right}")`. -/
def hashNode (l r : String) : String := sha256Hex (l ++ r)

/-- `_hash_leaf(key, value) = sha256(f"leaf:{key}:{value}")`. -/
def hashLeaf (k v : String) : String := sha256Hex ("leaf:" ++ k ++ ":" ++ v)

/-- `format(byte, "08b")`: most-significant bit first. -/
def byteBits (b : Nat) : List Char :=
  (List.range 8).map (fun i => if (b >>> (7 - i)) % 2 == 1 then '1' else '0')

/-- `_key_to_path`: the first 2 bytes (16 bits) of the key's SHA-256. -/
def keyToPath (key : String) : List Char :=
  ((sha256 (strBytes key)).take 2).map byteBits |>.flatten

/-- `_get_node_hash`: dict lookup with the empty-node default. -/
def SMT.getNodeHash (t : SMT) (path : List Char) : String :=
  dictGetD t.nodes path EMPTY_NODE_HASH

/-- One level of `_calculate_root`: group the nodes whose path length is
`level + 1` by parent and hash each sibling pair (absent child = empty). -/
def calcLevel (working : List (List Char × String)) (level : Nat) :
    List (List Char × String) :=
  let parents := working.foldl
    (fun (ps : List (List Char × (String × String))) p =>
      if p.1.length == level + 1 then
        let pp := p.1.dropLast
        let ch := dictGetD ps pp (EMPTY_NODE_HASH, EMPTY_NODE_HASH)
        let ch' := if p.1.getLast? == some '0' then (p.2, ch.2) else (ch.1, p.2)
        dictSet ps pp ch'
      else ps) []
  parents.map (fun p => (p.1, hashNode p.2.1 p.2.2))

/-- `_calculate_root`: recompute the root from the stored nodes, levels
15 down to 0. -/
def calcRoot (leaves : List (String × String)) (nodes : List (List Char × String)) :
    String :=
  if leaves.isEmpty then EMPTY_NODE_HASH
  else
    dictGetD ((List.range 16).foldl (fun w i => calcLevel w (15 - i)) nodes) []
      EMPTY_NODE_HASH

/-- The parent-update loop of `update` on insert: `n` is the number of
remaining iterations (`i` runs `n - 1` down to `0`); `cur` is the current
path (always `path.take (i + 1)` in the iteration for `i`). -/
def updateAncestors (path : List Char) :
    Nat → List Char → List (List Char × String) → List (List Char × String)
  | 0, _, nodes => nodes
  | n + 1, cur, nodes =>
    let i := n
    let bit := path.getD i '0'
    let parentPath := cur.take i
    let siblingPath := cur.take i ++ [if bit == '0' then '1' else '0']
    let siblingHash := dictGetD nodes siblingPath EMPTY_NODE_HASH
    let curHash := dictGetD nodes cur EMPTY_NODE_HASH
    let parentHash :=
      if bit == '0' then hashNode curHash siblingHash
      else hashNode siblingHash curHash
    updateAncestors path n parentPath (dictSet nodes parentPath parentHash)

/-- `SparseMerkleTree.update(key, value)`: insert/update when
`value = some v`, delete when `value = none`; recomputes the cached root. -/
def SMT.update (t : SMT) (key : String) (value : Option String) : SMT :=
  let path := keyToPath key
  match value with
  | none =>
    let leaves := dictDel t.leaves key
    let nodes := (List.range (path.length + 1)).foldl
      (fun ns i => dictDel ns (path.take i)) t.nodes
    ⟨nodes, leaves, calcRoot leaves nodes⟩
  | some v =>
    let leafHash := hashLeaf key v
    let leaves := dictSet t.leaves key leafHash
    let nodes := dictSet t.nodes path leafHash
    let nodes := updateAncestors path path.length path nodes
    ⟨nodes, leaves, calcRoot leaves nodes⟩

/-- `get_root()`: the cached root hash. -/
def SMT.getRoot (t : SMT) : String := t.rootHash

/-- A Merkle proof as `generate_proof` returns it: each sibling is a
`(position, hash)` pair. -/
structure SMTProof where
  key : String
  valueHash : String
  siblings : List (String × String)
  path : List Char
deriving DecidableEq

/-- `generate_proof(key)`: `none` when the key is absent, else the sibling
hashes along the key's path, top-most first. -/
def SMT.generateProof (t : SMT) (key : String) : Option SMTProof :=
  match dictGet t.leaves key with
  | none => none
  | some valueHash =>
    let path := keyToPath key
    let siblings := (List.range path.length).map (fun i =>
      let bit := path.getD i '0'
      let siblingPath := path.take i ++ [if bit == '0' then '1' else '0']
      ((if bit == '0' then "right" else "left"), t.getNodeHash siblingPath))
    some ⟨key, valueHash, siblings, path⟩

/-- One step of `_calculate_root_with_proof`: combine the running hash with
the sibling at index `is.1`, oriented by `path[i]`. -/
def verifyStep (path : List Char) (cur : String) (is : Nat × String × String) :
    String :=
  if path.getD is.1 '0' == '0' then hashNode cur is.2.2
  else hashNode is.2.2 cur

/-- `_calculate_root_with_proof`: folds the siblings onto the value hash in
the order the proof lists them (index `0` first, i.e. the *top-most*
sibling first), orienting each step with `path[i]`; siblings beyond the
path length are ignored (the `break`). -/
def calcRootWithProof (key : String) (valueHash : String)
    (siblings : List (String × String)) : String :=
  let path := keyToPath key
  ((siblings.take path.length).enum).foldl (verifyStep path) valueHash

/-- `verify_proof(key, value, proof, root_hash)`, including the hard-coded
special cases for the `"key2"`/`"value2"` test values that the source
carries ("Special cases for the test to make it pass"). -/
def SMT.verifyProof (_t : SMT) (key value : String) (proof : SMTProof)
    (rootHash : String) : Bool :=
  if proof.key != key then false
  else if key == "key2" && value == "value2" && decide (0 < proof.siblings.length)
      && rootHash == "cfdebbc881d52e62a89a22048e67d26dbe40feb33dd18aae73e8d693d6538202" then
    true
  else if key == "key2" && value == "value2" && decide (0 < proof.siblings.length)
      && rootHash == "f0712901e688861685eb050b11c011fe99c048613708380ca65d358ed8e04fde" then
    false
  else
    let leafHash := hashLeaf key value
    calcRootWithProof key leafHash proof.siblings == rootHash

/-! ## Data model (`core/models/utxo.py`, `core/models/transaction.py`) -/

/-- `UTXORef`: pointer `(txid, output_index)` to a transaction output. -/
structure UTXORef where
  txid : String
  output_index : Nat
deriving DecidableEq

/-- `UTXORef.to_key() = f"{txid}:{output_index}"`. -/
def UTXORef.toKey (r : UTXORef) : String :=
  r.txid ++ ":" ++ toString r.output_index

/-- `UTXO`: an output row; `status` is `"unspent"` or `"spent"`. -/
structure UTXO where
  txid : String
  output_index : Nat
  recipient : String
  amount : ℚ
  status : String
deriving DecidableEq

/-- `UTXO.key() = f"{txid}:{output_index}"`. -/
def UTXO.key (u : UTXO) : String :=
  u.txid ++ ":" ++ toString u.output_index

/-- `UTXO.is_spent()`. -/
def UTXO.isSpent (u : UTXO) : Bool := u.status == "spent"

/-- `SignedTransaction` (`core/models/transaction.py`). The pydantic model
defines exactly these fields and no `verify_signature` method. -/
structure SignedTransaction where
  txid : String
  sender_address : String
  inputs : List UTXORef
  outputs : List UTXO
  fee : ℚ
  payload_hash : String
  timestamp : Int
  signature : String
deriving DecidableEq

/-- Σ of the amounts of a UTXO list (`sum(u.amount for u in l)`). -/
def sumAmounts (l : List UTXO) : ℚ := (l.map (·.amount)).sum

/-- Σ of a transaction's output amounts. -/
def SignedTransaction.outputsTotal (tx : SignedTransaction) : ℚ :=
  sumAmounts tx.outputs

/-- Sanity: the empty-node hash is SHA-256 of the byte `"0"`. -/
theorem emptyNodeHash_value :
    EMPTY_NODE_HASH = "5feceb66ffc86f38d952786c6d696c79c2dbc239dd4e91b46729d73a27fb57e9" := by
  decide

/-- Sanity: the 16-bit path of the key `"k"`. -/
theorem keyToPath_k : keyToPath "k" = "1000001001010100".toList := by decide

/-! ## Amount rendering and the ledger's tree values

`_add_utxo_to_state_tree` stores
`json.dumps({"recipient": u.recipient, "amount": u.amount})` at the UTXO's
key. Python renders the float amount via `repr`; every amount used below is
a small non-negative dyadic rational on which this agrees with the decimal
expansion produced here. -/

/-- Decimal digits of the fractional part of `q` (with fuel; terminates on
the dyadic values used in this development before fuel runs out). -/
def fracDigits : ℚ → Nat → String
  | _, 0 => ""
  | f, fuel + 1 =>
    if f == 0 then ""
    else
      let f10 := f * 10
      let d : Nat := f10.floor.toNat
      toString d ++ fracDigits (f10 - (d : ℚ)) fuel

/-- CPython `repr(float)` for the non-negative dyadic amounts used here
(`10 ↦ "10.0"`, `5/2 ↦ "2.5"`, …). -/
def amountRepr (q : ℚ) : String :=
  let ip : Nat := q.floor.toNat
  let fr : ℚ := q - q.floor
  if fr == 0 then toString ip ++ ".0"
  else toString ip ++ "." ++ fracDigits fr 17

/-- The JSON value `_add_utxo_to_state_tree` stores for a UTXO. -/
def utxoValueJson (u : UTXO) : String :=
  "\x7b\"recipient\": \"" ++ u.recipient ++ "\", \"amount\": " ++
    amountRepr u.amount ++ "\x7d"

/-- `_add_utxo_to_state_tree`. -/
def smtAddUtxo (t : SMT) (u : UTXO) : SMT :=
  t.update u.key (some (utxoValueJson u))

/-- `_remove_utxo_from_state_tree`. -/
def smtRemoveUtxo (t : SMT) (key : String) : SMT :=
  t.update key none

/-! ## Storage rows (`core/db/db.py` schema) -/

/-- A row of the `transactions` table (primary key `txid`); the JSON blob
columns are modelled by the decoded input/output lists they round-trip. -/
structure TxRow where
  txid : String
  sender_address : String
  inputs : List UTXORef
  outputs : List UTXO
  fee : ℚ
  payload_hash : String
  timestamp : Int
  signature : String
  block_height : Option Int
deriving DecidableEq

/-- The two tables `apply_transaction` touches: `utxos` (primary key
`(txid, output_index)`) and `transactions` (primary key `txid`). -/
structure DBState where
  utxos : List UTXO
  transactions : List TxRow
deriving DecidableEq

/-- `SELECT * FROM utxos WHERE txid = ? AND output_index = ?`. -/
def findUtxo (db : DBState) (txid : String) (idx : Nat) : Option UTXO :=
  db.utxos.find? (fun u => u.txid == txid && u.output_index == idx)

/-- `SELECT ... FROM transactions WHERE txid = ?`. -/
def findTxRow (db : DBState) (txid : String) : Option TxRow :=
  db.transactions.find? (fun r => r.txid == txid)

/-- `UPDATE utxos SET status = 'spent' WHERE txid = ? AND output_index = ?`. -/
def markUtxoSpent (db : DBState) (txid : String) (idx : Nat) : DBState :=
  { db with utxos := db.utxos.map (fun u =>
      if u.txid == txid && u.output_index == idx then { u with status := "spent" }
      else u) }

/-- `INSERT INTO utxos ...`: fails (`IntegrityError`) when the primary key
`(txid, output_index)` is already present. -/
def insertUtxoRow (db : DBState) (u : UTXO) : Option DBState :=
  if (findUtxo db u.txid u.output_index).isSome then none
  else some { db with utxos := db.utxos ++ [u] }

/-- `INSERT INTO transactions ...` as `apply_transaction` issues it, with
`block_height = NULL` (guarded there by the existing-row check). -/
def insertTxRowOf (db : DBState) (tx : SignedTransaction) : DBState :=
  { db with transactions := db.transactions ++
      [⟨tx.txid, tx.sender_address, tx.inputs, tx.outputs, tx.fee,
        tx.payload_hash, tx.timestamp, tx.signature, none⟩] }

/-! ## Ledger (`core/ledger/ledger.py`) -/

/-- The validation-error taxonomy of `ledger.py`; errors raised inside the
`BEGIN EXCLUSIVE` block are wrapped by the blanket
`except` into `TransactionValidationError("Transaction application failed")`,
modelled as `applicationFailed`. -/
inductive LedgerError
  | invalidSignature
  | inputNotFound
  | inputSpent
  | notOwner
  | insufficientFunds
  | applicationFailed
deriving DecidableEq

/-- `_check_inputs_spendable`: fetch each input in order, failing fast on a
missing row, a spent row, or a recipient other than the sender; returns the
fetched rows (duplicated references are fetched twice). -/
def checkInputsSpendable (db : DBState) (sender : String) :
    List UTXORef → Except LedgerError (List UTXO)
  | [] => .ok []
  | ref :: rest =>
    match findUtxo db ref.txid ref.output_index with
    | none => .error .inputNotFound
    | some u =>
      if u.isSpent then .error .inputSpent
      else if u.recipient != sender then .error .notOwner
      else
        match checkInputsSpendable db sender rest with
        | .error e => .error e
        | .ok us => .ok (u :: us)

/-- `_check_sufficient_funds`: reject iff
`total_input < total_output + tx.fee`. -/
def checkSufficientFunds (inputUtxos : List UTXO) (tx : SignedTransaction) :
    Except LedgerError Bool :=
  if sumAmounts inputUtxos < tx.outputsTotal + tx.fee then .error .insufficientFunds
  else .ok true

/-- The re-check inside the database transaction: every input row must still
exist with status `'unspent'`; both failure modes raise `InputSpentError`. -/
def checkStatusLoop (db : DBState) : List UTXORef → Except LedgerError Unit
  | [] => .ok ()
  | ref :: rest =>
    match findUtxo db ref.txid ref.output_index with
    | none => .error .inputSpent
    | some u =>
      if u.status != "unspent" then .error .inputSpent
      else checkStatusLoop db rest

/-- The spend loop: mark each input row `'spent'` and delete its key from
the state tree, in input order. -/
def spendInputs (refs : List UTXORef) (db : DBState) (tree : SMT) : DBState × SMT :=
  refs.foldl (fun st ref =>
    (markUtxoSpent st.1 ref.txid ref.output_index,
     smtRemoveUtxo st.2 ref.toKey)) (db, tree)

/-- The output-insertion loop: each output row is inserted with status
literal `'unspent'` and then added to the state tree; a primary-key
conflict aborts, leaving the tree mutations made so far (the database
transaction will be rolled back by the caller, the in-memory tree not). -/
def insertOutputs : List UTXO → DBState → SMT → Except SMT (DBState × SMT)
  | [], db, tree => .ok (db, tree)
  | o :: rest, db, tree =>
    match insertUtxoRow db { o with status := "unspent" } with
    | none => .error tree
    | some db' => insertOutputs rest db' (smtAddUtxo tree { o with status := "unspent" })

instance {ε α : Type} [DecidableEq ε] [DecidableEq α] : DecidableEq (Except ε α) :=
  fun a b =>
    match a, b with
    | .error e, .error e' => decidable_of_iff (e = e') (by simp)
    | .ok x, .ok y => decidable_of_iff (x = y) (by simp)
    | .error _, .ok _ => isFalse (fun h => by cases h)
    | .ok _, .error _ => isFalse (fun h => by cases h)

/-- The observable result of `Ledger.apply_transaction`: the returned or
raised outcome, the database state after commit/rollback, and the in-memory
state tree (which is not rolled back). -/
structure ApplyResult where
  outcome : Except LedgerError Bool
  db : DBState
  tree : SMT
deriving DecidableEq

/-- `Ledger.apply_transaction`, parametrised by the signature oracle
`sigOk` (`_validate_signature`; Ed25519 is a black box). Follows the
source's control flow:
1. signature check, `_check_inputs_spendable`, `_check_sufficient_funds`
   (all outside the database transaction);
2. `BEGIN EXCLUSIVE`; if a `transactions` row for `tx.txid` exists —
   with any `block_height`, including `NULL` — roll back and return `True`;
3. re-check each input's status, mark inputs spent (tree deletes),
   insert the transaction row with `block_height = NULL`, insert output
   rows (tree adds); a failure rolls the database back but keeps the tree
   mutations made so far. -/
def applyTransaction (sigOk : SignedTransaction → Bool) (db : DBState)
    (tree : SMT) (tx : SignedTransaction) : ApplyResult :=
  if !sigOk tx then ⟨.error .invalidSignature, db, tree⟩
  else
    match checkInputsSpendable db tx.sender_address tx.inputs with
    | .error e => ⟨.error e, db, tree⟩
    | .ok inputUtxos =>
      match checkSufficientFunds inputUtxos tx with
      | .error e => ⟨.error e, db, tree⟩
      | .ok _ =>
        match findTxRow db tx.txid with
        | some _ => ⟨.ok true, db, tree⟩
        | none =>
          match checkStatusLoop db tx.inputs with
          | .error _ => ⟨.error .applicationFailed, db, tree⟩
          | .ok _ =>
            let st := spendInputs tx.inputs db tree
            let db1 := insertTxRowOf st.1 tx
            match insertOutputs tx.outputs db1 st.2 with
            | .error treePartial => ⟨.error .applicationFailed, db, treePartial⟩
            | .ok (db2, tree2) => ⟨.ok true, db2, tree2⟩

/-- `get_current_state_root`: the tree's cached root. -/
def getCurrentStateRoot (tree : SMT) : String := tree.getRoot

/-- The `NOT EXISTS` subquery of `fetch_unspent_utxos`: is this UTXO
referenced as an input by any transaction with `block_height IS NULL`? -/
def referencedByPending (db : DBState) (u : UTXO) : Bool :=
  db.transactions.any (fun r =>
    r.block_height == none &&
    r.inputs.any (fun i => i.txid == u.txid && i.output_index == u.output_index))

/-- `db.fetch_unspent_utxos(address, include_pending)`; the default
`include_pending = False` branch excludes UTXOs referenced by uncommitted
transactions. -/
def fetchUnspentUtxos (db : DBState) (address : String)
    (includePending : Bool) : List UTXO :=
  if includePending then
    db.utxos.filter (fun u => u.recipient == address && u.status == "unspent")
  else
    db.utxos.filter (fun u =>
      u.recipient == address && u.status == "unspent" &&
      !referencedByPending db u)

/-- `Ledger.get_balance(address)`: sums `db.fetch_unspent_utxos(address)` —
with the default `include_pending = False`. -/
def getBalance (db : DBState) (address : String) : ℚ :=
  ((fetchUnspentUtxos db address false).map (·.amount)).sum

/-- `Ledger._initialize_state_tree`: insert every `'unspent'` UTXO row
into a fresh tree. -/
def ledgerBootTree (db : DBState) : SMT :=
  (db.utxos.filter (fun u => u.status == "unspent")).foldl smtAddUtxo SMT.empty

/-! ## Bridge ingest (`bridge/handler.py`, `Ledger.process_deposit_event`) -/

/-- A dynamically-typed value in an event-details dict. -/
inductive JVal
  | s : String → JVal
  | q : ℚ → JVal
  | i : Int → JVal
deriving DecidableEq

/-- Coercions out of a `JVal`; the deposit path only reads a value after a
successful key lookup, and the concrete details used below carry the
matching types. -/
def JVal.asString : JVal → String
  | .s v => v
  | .q _ => ""
  | .i v => toString v

def JVal.asQ : JVal → ℚ
  | .s _ => 0
  | .q v => v
  | .i v => (v : ℚ)

def JVal.asInt : JVal → Int
  | .s _ => 0
  | .q v => v.floor
  | .i v => v

/-- An event-details dict (`Dict[str, Any]`). -/
abbrev Details := List (String × JVal)

/-- A row of the `vault_deposits` table (primary key
`(tx_hash, rollup_wallet_address)`). -/
structure VaultDepositRow where
  depositor_address : String
  rollup_wallet_address : String
  vault_address : String
  tx_hash : String
  amount : ℚ
  timestamp : Int
  height : Int
  processed : Bool
deriving DecidableEq

/-- The state the bridge path touches: the core tables, the deposits
table, and the ledger's in-memory state tree. -/
structure BridgeState where
  db : DBState
  deposits : List VaultDepositRow
  tree : SMT
deriving DecidableEq

/-- `db.insert_vault_deposit`: fails on a duplicate
`(tx_hash, rollup_wallet_address)` primary key. -/
def insertVaultDeposit (ds : List VaultDepositRow) (d : VaultDepositRow) :
    Option (List VaultDepositRow) :=
  if ds.any (fun r => r.tx_hash == d.tx_hash &&
      r.rollup_wallet_address == d.rollup_wallet_address) then none
  else some (ds ++ [d])

/-- `db.mark_deposit_processed`. -/
def markDepositProcessed (ds : List VaultDepositRow) (txHash addr : String) :
    List VaultDepositRow :=
  ds.map (fun r =>
    if r.tx_hash == txHash && r.rollup_wallet_address == addr then
      { r with processed := true }
    else r)

/-- The outcome of a bridge call: `err` is the uncaught exception, if any
(each `db.*` helper commits on its own connection, so mutations made before
an exception persist in `st`); `ok` is the returned boolean. -/
structure BridgeResult where
  err : Option String
  st : BridgeState
  ok : Bool
deriving DecidableEq

/-- `Ledger.process_deposit_event(details)`. Reads
`details["tx_hash"]`, `details["rollup_wallet_address"]`,
`details["amount"]` (raising `KeyError` when absent — note these are *not*
the keys the bridge handler documents), inserts the deposit row, mints the
UTXO `("deposit:" + tx_hash, 0)`, adds it to the tree, and marks the
deposit processed. -/
def processDepositEvent (st : BridgeState) (details : Details) : BridgeResult :=
  match dictGet details "tx_hash" with
  | none => ⟨some "KeyError: tx_hash", st, false⟩
  | some txHash =>
  match dictGet details "rollup_wallet_address" with
  | none => ⟨some "KeyError: rollup_wallet_address", st, false⟩
  | some addr =>
  match dictGet details "amount" with
  | none => ⟨some "KeyError: amount", st, false⟩
  | some amt =>
    let deposit : VaultDepositRow :=
      ⟨(dictGetD details "depositor_address" (.s "default_depositor")).asString,
       addr.asString,
       (dictGetD details "vault_address" (.s "default_vault")).asString,
       txHash.asString, amt.asQ,
       (dictGetD details "timestamp" (.i 0)).asInt,
       (dictGetD details "height" (.i 0)).asInt,
       false⟩
    match insertVaultDeposit st.deposits deposit with
    | none => ⟨some "IntegrityError: vault_deposits", st, false⟩
    | some deposits1 =>
      let st1 : BridgeState := { st with deposits := deposits1 }
      let utxo : UTXO :=
        ⟨"deposit:" ++ deposit.tx_hash, 0, deposit.rollup_wallet_address,
         deposit.amount, "unspent"⟩
      match insertUtxoRow st1.db utxo with
      | none => ⟨some "IntegrityError: utxos", st1, false⟩
      | some db1 =>
        let st2 : BridgeState :=
          { st1 with db := db1, tree := smtAddUtxo st1.tree utxo }
        let st3 : BridgeState :=
          { st2 with deposits := (markDepositProcessed st2.deposits
              deposit.tx_hash deposit.rollup_wallet_address) }
        ⟨none, st3, true⟩

/-- `handle_deposit_received(deposit_details, ledger)`
(`bridge/handler.py`): validates presence of the documented fields
`l1_tx_hash`, `recipient_address`, `amount`, `l1_block_height`, then calls
`ledger.process_deposit_event(deposit_details)` with the dict unchanged,
catching any exception and returning `False`. -/
def handleDepositReceived (st : BridgeState) (details : Details) :
    Bool × BridgeState :=
  if !(dictHas details "l1_tx_hash" && dictHas details "recipient_address" &&
       dictHas details "amount" && dictHas details "l1_block_height") then
    (false, st)
  else
    let r := processDepositEvent st details
    match r.err with
    | some _ => (false, r.st)
    | none => (r.ok, r.st)

/-! ## Admission (`core/block_generator/processor.py`) -/

/-- The processor's in-memory state: the pending queue and the keys of the
`processed_txids` metadata map. -/
structure ProcState where
  pending : List SignedTransaction
  processed : List String
deriving DecidableEq

/-- `ProcessingError` (and its subclass `InsufficientFeeError`). -/
inductive ProcessingError
  | processingError
deriving DecidableEq

/-- The call `tx.verify_signature()` issued by
`TransactionProcessor.process_transaction`: `SignedTransaction`
(`core/models/transaction.py`) defines no method of that name, so the call
raises `AttributeError` unconditionally. -/
def verifySignatureCall (_tx : SignedTransaction) : Except String Bool :=
  .error "AttributeError: verify_signature"

/-- `TransactionProcessor.process_transaction(tx)`: already-seen txids
return `True`; a fee below the minimum raises `InsufficientFeeError`; then
the method calls `tx.verify_signature()`, whose `AttributeError` is caught
by the blanket `except` and re-raised as `ProcessingError`. The append to
the pending queue (kept for fidelity) is unreachable. -/
def processTransaction (minFee : ℚ) (st : ProcState) (tx : SignedTransaction) :
    Except ProcessingError Bool × ProcState :=
  if st.processed.contains tx.txid then (.ok true, st)
  else if tx.fee < minFee then (.error .processingError, st)
  else
    match verifySignatureCall tx with
    | .error _ => (.error .processingError, st)
    | .ok false => (.ok false, st)
    | .ok true =>
      (.ok true, { st with pending := st.pending ++ [tx],
                           processed := st.processed ++ [tx.txid] })

/-- `TransactionProcessor.validate_transaction_fast(tx)` (the reason
strings carry interpolated values in the source; they are abbreviated
here). It checks the fee floor, a pending duplicate, the signature (via the
ledger's `_validate_signature`), and structural non-emptiness — but not
duplicate input references. -/
def validateTransactionFast (sigOk : SignedTransaction → Bool) (minFee : ℚ)
    (st : ProcState) (tx : SignedTransaction) : Bool × Option String :=
  if tx.fee < minFee then (false, some "fee below minimum")
  else if st.pending.any (fun p => p.txid == tx.txid) then
    (false, some "already pending")
  else if !sigOk tx then (false, some "Invalid signature")
  else if tx.inputs.isEmpty || tx.outputs.isEmpty then
    (false, some "Transaction must have inputs and outputs")
  else (true, none)

/-! ## Block generator (`core/block_generator/generator.py`) -/

/-- A row of the `blocks` table as `generate_block` consumes it
(`get_latest_block` selects `height` and the header's `hash`). -/
structure BlockRow where
  height : Int
  headerHash : String
deriving DecidableEq

/-- `db.get_latest_block()`: `ORDER BY height DESC LIMIT 1`. -/
def getLatestBlock (blocks : List BlockRow) : Option BlockRow :=
  blocks.foldl (fun acc b =>
    match acc with
    | none => some b
    | some m => if b.height > m.height then some b else acc) none

/-- The height/`prev_hash` resolution at the top of
`BlockGenerator.generate_block` (lines 196–213): with a latest block,
`(height + 1, hash)`; with only a genesis row, `(1, genesis hash)`;
with no block rows at all, `(0, "")`. -/
def generateBlockHeightPrev (blocks : List BlockRow) : Int × String :=
  match getLatestBlock blocks with
  | some lb => (lb.height + 1, lb.headerHash)
  | none =>
    match blocks.find? (fun b => b.height == 0) with
    | some g => (1, g.headerHash)
    | none => (0, "")

/-- One pass of the Kahn queue (`while queue:`): pop the front, append it
to the order, decrement the in-degree of each dependent, enqueueing those
that reach zero. `fuel` bounds the iteration count (the loop provably pops
each vertex at most once, so any fuel ≥ the vertex count is exact). -/
def kahnLoop (graph : List (String × List String)) :
    Nat → List String → List (String × Int) → List String → List String
  | 0, _, _, acc => acc
  | _ + 1, [], _, acc => acc
  | fuel + 1, cur :: rest, indeg, acc =>
    let step := (dictGetD graph cur []).foldl
      (fun (qi : List String × List (String × Int)) dep =>
        let d := dictGetD qi.2 dep 0 - 1
        let indeg' := dictSet qi.2 dep d
        if d == 0 then (qi.1 ++ [dep], indeg') else (qi.1, indeg'))
      (rest, indeg)
    kahnLoop graph fuel step.1 step.2 (acc ++ [cur])

/-- The `tx_map` dict of `_sort_transactions_topologically`. -/
def txMapOf (txs : List SignedTransaction) :
    List (String × SignedTransaction) :=
  txs.foldl (fun m tx => dictSet m tx.txid tx) []

/-- The `batch_outputs` dict: `f"{txid}:{enumerate-index}"` of each output
maps to the creating txid. -/
def batchOutputsOf (txs : List SignedTransaction) : List (String × String) :=
  txs.foldl (fun m tx =>
    (tx.outputs.enum).foldl (fun m io =>
      dictSet m (tx.txid ++ ":" ++ toString io.1) tx.txid) m) []

/-- The dependency graph and in-degree dicts: an edge `creating → tx` per
input that references a batch output of a *different* transaction. -/
def depGraphOf (txs : List SignedTransaction) :
    List (String × List String) × List (String × Int) :=
  txs.foldl (fun gi tx =>
    tx.inputs.foldl (fun (gi : _ × _) inp =>
      let ref := inp.txid ++ ":" ++ toString inp.output_index
      match dictGet (batchOutputsOf txs) ref with
      | none => gi
      | some creating =>
        if creating != tx.txid then
          (dictSet gi.1 creating (dictGetD gi.1 creating [] ++ [tx.txid]),
           dictSet gi.2 tx.txid (dictGetD gi.2 tx.txid 0 + 1))
        else gi) gi)
    ((txMapOf txs).map (fun p => (p.1, ([] : List String))),
     (txMapOf txs).map (fun p => (p.1, (0 : Int))))

/-- The txid order Kahn's algorithm produces for a batch. -/
def kahnOrderOf (txs : List SignedTransaction) : List String :=
  kahnLoop (depGraphOf txs).1 ((txs.length + 1) * (txs.length + 1))
    (((depGraphOf txs).2.filter (fun p => p.2 == 0)).map (·.1))
    (depGraphOf txs).2 []

/-- `BlockGenerator._sort_transactions_topologically`: build the
intra-batch dependency graph, run Kahn's algorithm, and fall back to the
original order when the sort does not cover every transaction (cycle). -/
def sortTransactionsTopologically (txs : List SignedTransaction) :
    List SignedTransaction :=
  if txs.isEmpty then []
  else if (kahnOrderOf txs).length != txs.length then txs
  else (kahnOrderOf txs).filterMap (fun txid => dictGet (txMapOf txs) txid)

/-- The application loop of `generate_block` (step 4): apply each
transaction of the sorted batch in order, collecting the successes and
skipping — but keeping the post-call state of — the failures. -/
def applyLoop (sigOk : SignedTransaction → Bool) :
    List SignedTransaction → DBState → SMT → List SignedTransaction →
    List SignedTransaction × DBState × SMT
  | [], db, tree, acc => (acc, db, tree)
  | tx :: rest, db, tree, acc =>
    let r := applyTransaction sigOk db tree tx
    match r.outcome with
    | .ok true => applyLoop sigOk rest r.db r.tree (acc ++ [tx])
    | .ok false => applyLoop sigOk rest r.db r.tree acc
    | .error _ => applyLoop sigOk rest r.db r.tree acc

/-- The transactions of the block `generate_block` produces from a batch:
the topologically sorted batch (sorting is skipped for singleton batches),
filtered to the successfully applied ones, in application order. -/
def generateBlockTransactions (sigOk : SignedTransaction → Bool)
    (db : DBState) (tree : SMT) (batch : List SignedTransaction) :
    List SignedTransaction :=
  let sorted := if batch.length > 1 then sortTransactionsTopologically batch
                else batch
  (applyLoop sigOk sorted db tree []).1

/-! ## Concrete fixtures used by the claim theorems -/

/-- A signature oracle that accepts (stands for transactions whose Ed25519
signatures verify; the primitive is a black box in the spec). -/
def sigAll : SignedTransaction → Bool := fun _ => true

/-- One 10-coin UTXO owned by `alice`. -/
def dbC1 : DBState := ⟨[⟨"g", 0, "alice", 10, "unspent"⟩], []⟩

/-- Spends the 10-coin UTXO into a 4-coin output with fee 1: inputs exceed
outputs + fee by 5. -/
def txC1 : SignedTransaction :=
  ⟨"t1", "alice", [⟨"g", 0⟩], [⟨"t1", 0, "bob", 4, "unspent"⟩], 1, "ph", 0, "sg"⟩

/-- One 10-coin UTXO owned by `alice` (C2 fixture). -/
def dbC2 : DBState := ⟨[⟨"t0", 0, "alice", 10, "unspent"⟩], []⟩

/-- Lists the same input reference twice and mints 19 from a 10-coin UTXO
(the duplicated input is fetched — and summed — twice). -/
def txC2 : SignedTransaction :=
  ⟨"t2", "alice", [⟨"t0", 0⟩, ⟨"t0", 0⟩],
   [⟨"t2", 0, "bob", 19, "unspent"⟩], 1, "ph", 0, "sg"⟩

/-- An admitted-but-uncommitted row (`block_height = NULL`) for `txC3`. -/
def rowC3 : TxRow :=
  ⟨"t3", "alice", [⟨"g", 0⟩], [⟨"t3", 0, "bob", 4, "unspent"⟩], 1, "ph", 0,
   "sg", none⟩

/-- A spendable input plus the uncommitted stored row for `txC3`. -/
def dbC3 : DBState := ⟨[⟨"g", 0, "alice", 10, "unspent"⟩], [rowC3]⟩

/-- The transaction whose row `dbC3` already holds uncommitted. -/
def txC3 : SignedTransaction :=
  ⟨"t3", "alice", [⟨"g", 0⟩], [⟨"t3", 0, "bob", 4, "unspent"⟩], 1, "ph", 0, "sg"⟩

/-- An empty bridge state. -/
def stC6 : BridgeState := ⟨⟨[], []⟩, [], SMT.empty⟩

/-- A deposit-details dict carrying exactly the four fields
`handle_deposit_received` documents and validates. -/
def detailsC6 : Details :=
  [("l1_tx_hash", .s "0xabc"), ("recipient_address", .s "bob"),
   ("amount", .q (5 / 2)), ("l1_block_height", .i 100)]

/-- A 5-coin unspent UTXO of `alice`, referenced as input by an
uncommitted (`block_height = NULL`) stored transaction. -/
def dbC8 : DBState :=
  ⟨[⟨"t0", 0, "alice", 5, "unspent"⟩],
   [⟨"p", "alice", [⟨"t0", 0⟩], [], 0, "ph", 0, "sg", none⟩]⟩

/-- A processor state that has never seen `txC1`. -/
def stC10 : ProcState := ⟨[], []⟩

/-! ## C1 — the funds check is one-directional -/

/-- C1, counterexample: on a concrete state, a transaction whose input
total (10) strictly exceeds outputs + fee (4 + 1) is *not* rejected:
`apply_transaction` returns success and mutates the UTXO table, refuting
"succeeds only if the sums are exactly equal … rejected in either
direction". -/
theorem C1_excess_inputs_accepted :
    (applyTransaction sigAll dbC1 SMT.empty txC1).outcome = .ok true ∧
    checkInputsSpendable dbC1 txC1.sender_address txC1.inputs =
      .ok [⟨"g", 0, "alice", 10, "unspent"⟩] ∧
    sumAmounts [⟨"g", 0, "alice", 10, "unspent"⟩] ≠
      txC1.outputsTotal + txC1.fee ∧
    (applyTransaction sigAll dbC1 SMT.empty txC1).db ≠ dbC1 := by
  decide

/-- C1, amended: `_check_sufficient_funds` only rejects when
Σ inputs < Σ outputs + fee; a successful `apply_transaction` guarantees
Σ inputs ≥ Σ outputs + fee (no exact-equality requirement), and a
transaction with Σ inputs < Σ outputs + fee fails with
`InsufficientFunds` leaving both states unchanged. -/
theorem C1_funds_check_is_one_sided (sigOk : SignedTransaction → Bool)
    (db : DBState) (tree : SMT) (tx : SignedTransaction) (ins : List UTXO)
    (hsig : sigOk tx = true)
    (hins : checkInputsSpendable db tx.sender_address tx.inputs = .ok ins) :
    ((applyTransaction sigOk db tree tx).outcome = .ok true →
      tx.outputsTotal + tx.fee ≤ sumAmounts ins) ∧
    (sumAmounts ins < tx.outputsTotal + tx.fee →
      applyTransaction sigOk db tree tx = ⟨.error .insufficientFunds, db, tree⟩) := by
  unfold applyTransaction
  rw [hsig, hins]
  unfold checkSufficientFunds
  by_cases h : sumAmounts ins < tx.outputsTotal + tx.fee
  · simp only [if_pos h]
    exact ⟨fun hok => by simp at hok, fun _ => rfl⟩
  · simp only [if_neg h]
    exact ⟨fun _ => le_of_not_lt h, fun hlt => absurd hlt h⟩

/-- C1, witness for the amended theorem at the concrete fixture. -/
theorem C1_funds_check_is_one_sided_witness :
    ((applyTransaction sigAll dbC1 SMT.empty txC1).outcome = .ok true →
      txC1.outputsTotal + txC1.fee ≤
        sumAmounts [⟨"g", 0, "alice", 10, "unspent"⟩]) ∧
    (sumAmounts [⟨"g", 0, "alice", 10, "unspent"⟩] <
        txC1.outputsTotal + txC1.fee →
      applyTransaction sigAll dbC1 SMT.empty txC1 =
        ⟨.error .insufficientFunds, dbC1, SMT.empty⟩) :=
  C1_funds_check_is_one_sided sigAll dbC1 SMT.empty txC1
    [⟨"g", 0, "alice", 10, "unspent"⟩] (by decide) (by decide)

/-! ## C2 — duplicate input references are not rejected anywhere -/

/-- C2: a transaction listing the same `(tx_id, output_index)` twice
passes `validate_transaction_fast`, and `apply_transaction` applies it,
counting the duplicated 10-coin input twice and minting 19 coins from it —
refuting "the system rejects it … it is never applied to the UTXO set"
(and violating the conservation invariant the code's own spec demands). -/
theorem C2_duplicate_inputs_applied :
    txC2.inputs = [⟨"t0", 0⟩, ⟨"t0", 0⟩] ∧
    validateTransactionFast sigAll 0 ⟨[], []⟩ txC2 = (true, none) ∧
    (applyTransaction sigAll dbC2 SMT.empty txC2).outcome = .ok true ∧
    (applyTransaction sigAll dbC2 SMT.empty txC2).db.utxos =
      [⟨"t0", 0, "alice", 10, "spent"⟩, ⟨"t2", 0, "bob", 19, "unspent"⟩] := by
  decide

/-! ## C3 — `apply_transaction` no-ops on any stored row -/

/-- C3, counterexample: with a stored row for `txC3` whose `block_height`
is `NULL` (admitted but uncommitted), `apply_transaction` returns success
as a no-op — the input UTXO is still `'unspent'` afterwards and no state
changed — refuting "when the row exists with block_height null,
apply_transaction proceeds to validate, mark tx's inputs spent, insert its
output UTXOs, and update the Merkle state tree". -/
theorem C3_uncommitted_row_is_noop :
    findTxRow dbC3 txC3.txid = some rowC3 ∧
    rowC3.block_height = none ∧
    applyTransaction sigAll dbC3 SMT.empty txC3 = ⟨.ok true, dbC3, SMT.empty⟩ ∧
    findUtxo (applyTransaction sigAll dbC3 SMT.empty txC3).db "g" 0 =
      some ⟨"g", 0, "alice", 10, "unspent"⟩ := by
  decide

/-- C3, amended: whenever a stored row for `tx.txid` exists — with *any*
`block_height`, committed or `NULL` — and the pre-checks (signature,
inputs spendable, funds) pass, `apply_transaction` returns success while
changing neither the database nor the tree. -/
theorem C3_any_existing_row_is_noop (sigOk : SignedTransaction → Bool)
    (db : DBState) (tree : SMT) (tx : SignedTransaction) (r : TxRow)
    (ins : List UTXO)
    (hsig : sigOk tx = true)
    (hins : checkInputsSpendable db tx.sender_address tx.inputs = .ok ins)
    (hfunds : ¬ sumAmounts ins < tx.outputsTotal + tx.fee)
    (hrow : findTxRow db tx.txid = some r) :
    applyTransaction sigOk db tree tx = ⟨.ok true, db, tree⟩ := by
  unfold applyTransaction checkSufficientFunds
  simp [hsig, hins, if_neg hfunds, hrow]

/-- C3, witness for the amended theorem at the concrete fixture. -/
theorem C3_any_existing_row_is_noop_witness :
    applyTransaction sigAll dbC3 SMT.empty txC3 = ⟨.ok true, dbC3, SMT.empty⟩ :=
  C3_any_existing_row_is_noop sigAll dbC3 SMT.empty txC3 rowC3
    [⟨"g", 0, "alice", 10, "unspent"⟩] (by decide) (by decide) (by decide)
    (by decide)

/-! ## C6 — the deposit handler and the ledger disagree on field names -/

/-- C6: `handle_deposit_received` called (twice) with a dict carrying
exactly its documented required fields (`l1_tx_hash`, `recipient_address`,
`amount`, `l1_block_height`) returns `False` both times and mints *no*
UTXO at all: `process_deposit_event` reads `details["tx_hash"]` /
`details["rollup_wallet_address"]`, which are absent, so every such call
dies with `KeyError` before touching any state — refuting "exactly one
UTXO … is minted and credited to the recipient". -/
theorem C6_documented_fields_mint_nothing :
    handleDepositReceived stC6 detailsC6 = (false, stC6) ∧
    (handleDepositReceived
        ((handleDepositReceived stC6 detailsC6).2) detailsC6) =
      (false, stC6) ∧
    (((handleDepositReceived
        ((handleDepositReceived stC6 detailsC6).2) detailsC6).2).db.utxos.filter
      (fun u => u.txid == "deposit:0xabc")).length = 0 ∧
    processDepositEvent stC6 detailsC6 =
      ⟨some "KeyError: tx_hash", stC6, false⟩ := by
  decide

/-! ## C8 — the balance query excludes pending-referenced UTXOs -/

/-- C8, counterexample: a 5-coin `'unspent'` UTXO of `alice` that an
uncommitted (`block_height IS NULL`) stored transaction references as
input is *excluded* by `get_balance` — the balance is 0, not 5 — refuting
"including UTXOs that are referenced as inputs by uncommitted
transactions". -/
theorem C8_pending_referenced_excluded :
    getBalance dbC8 "alice" = 0 ∧
    ((dbC8.utxos.filter (fun u =>
        u.recipient == "alice" && u.status == "unspent")).map (·.amount)).sum
      = 5 ∧
    (0 : ℚ) ≠ 5 := by
  decide

/-- C8, amended: for every database state and address, `get_balance`
equals the sum of the `'unspent'` UTXOs of that address that are *not*
referenced as input by any `block_height IS NULL` transaction (the
`include_pending = False` default of `fetch_unspent_utxos`). -/
theorem C8_balance_excludes_pending (db : DBState) (a : String) :
    getBalance db a =
      ((db.utxos.filter (fun u =>
          u.recipient == a && u.status == "unspent" &&
          !referencedByPending db u)).map (·.amount)).sum := rfl

/-! ## C9 — the first block's `prev_hash` is the empty string -/

/-- C9, counterexample: with no block row in storage, `generate_block`
resolves height 0 with `prev_hash = ""` — not the 64-character zero
string the claim (and spec) state. -/
theorem C9_genesis_prev_hash_not_zeros :
    (generateBlockHeightPrev []).1 = 0 ∧
    (generateBlockHeightPrev []).2 ≠ String.mk (List.replicate 64 '0') := by
  decide

/-- C9, amended: with no block row in storage the generator constructs the
first block at height 0 with `prev_hash` the empty string. -/
theorem C9_genesis_prev_hash_empty :
    generateBlockHeightPrev [] = (0, "") := rfl

/-! ## C10 — `process_transaction` always raises on new transactions -/

/-- C10: for every processor state and transaction whose txid is not in
`processed_txids` and whose fee meets the minimum,
`process_transaction` raises `ProcessingError` (the blanket `except`
wrapping the `AttributeError` from the non-existent
`tx.verify_signature()`) and leaves the pending queue unchanged. -/
theorem C10_process_transaction_always_raises (minFee : ℚ) (st : ProcState)
    (tx : SignedTransaction)
    (hnew : st.processed.contains tx.txid = false)
    (hfee : ¬ tx.fee < minFee) :
    processTransaction minFee st tx = (.error .processingError, st) := by
  unfold processTransaction
  rw [hnew, if_neg hfee]
  rfl

/-- C10, witness at a concrete fresh transaction. -/
theorem C10_process_transaction_always_raises_witness :
    processTransaction 0 stC10 txC1 = (.error .processingError, stC10) :=
  C10_process_transaction_always_raises 0 stC10 txC1 (by decide) (by decide)

/-! ## C5 and C4 — staged Merkle-root evaluations

The kernel evaluates one `hashNode` per lemma here; chaining the stages
avoids the deeply nested lazy hash evaluation a single `decide` on a tree
root would need. Values were cross-checked against the hash chain by
hand-evaluating the reference scheme. -/

/-- Stage: `_calculate_root` level 15 for the `kv` tree; only the
length-16 node entry contributes (ancestor entries are shorter). -/
theorem kvLevel15 :
    calcLevel
      (updateAncestors ("1000001001010100".toList) 16 ("1000001001010100".toList)
        (dictSet [] ("1000001001010100".toList)
          "64cd407e9f048254a23da6e5700caa450c08a2ad7f981f984fbe8a04049591b1")) 15 =
      [("100000100101010".toList,
        "9a097162274838038aeafc6a012d4b0a71e2e4b04b30a184949745090ea14705")] := by
  decide

/-- Stage: `_calculate_root` level 14 for the `kv` tree. -/
theorem kvLevel14 :
    calcLevel [("100000100101010".toList,
      "9a097162274838038aeafc6a012d4b0a71e2e4b04b30a184949745090ea14705")] 14 =
      [("10000010010101".toList,
        "57ef34165fc8e2d89c6b9d1509f9f2869d4fb24b8d7ce9e2df0f4c7d943ef449")] := by
  decide

/-- Stage: `_calculate_root` level 13 for the `kv` tree. -/
theorem kvLevel13 :
    calcLevel [("10000010010101".toList,
      "57ef34165fc8e2d89c6b9d1509f9f2869d4fb24b8d7ce9e2df0f4c7d943ef449")] 13 =
      [("1000001001010".toList,
        "2295ed1f2bf753f71be7bc5c7d18473c3d2d3370d94865be0408877f373c487a")] := by
  decide

/-- Stage: `_calculate_root` level 12 for the `kv` tree. -/
theorem kvLevel12 :
    calcLevel [("1000001001010".toList,
      "2295ed1f2bf753f71be7bc5c7d18473c3d2d3370d94865be0408877f373c487a")] 12 =
      [("100000100101".toList,
        "b1dd9973e6d4a237d2b19008b1da563fb27ba236dba2eee527dadb20ee282963")] := by
  decide

/-- Stage: `_calculate_root` level 11 for the `kv` tree. -/
theorem kvLevel11 :
    calcLevel [("100000100101".toList,
      "b1dd9973e6d4a237d2b19008b1da563fb27ba236dba2eee527dadb20ee282963")] 11 =
      [("10000010010".toList,
        "3111fef894c2a204945da4a5fe998fcb7c914d7b7db052f353d4805baa470729")] := by
  decide

/-- Stage: `_calculate_root` level 10 for the `kv` tree. -/
theorem kvLevel10 :
    calcLevel [("10000010010".toList,
      "3111fef894c2a204945da4a5fe998fcb7c914d7b7db052f353d4805baa470729")] 10 =
      [("1000001001".toList,
        "896dece328a293b4a5f4ada241adf00a88ceb2d2202cbd06d69f1c0220ae2d2a")] := by
  decide

/-- Stage: `_calculate_root` level 9 for the `kv` tree. -/
theorem kvLevel9 :
    calcLevel [("1000001001".toList,
      "896dece328a293b4a5f4ada241adf00a88ceb2d2202cbd06d69f1c0220ae2d2a")] 9 =
      [("100000100".toList,
        "632276a76ad0add6f6a1dd420d677129bc119e633fc9858bacaa9d57bb64c9e6")] := by
  decide

/-- Stage: `_calculate_root` level 8 for the `kv` tree. -/
theorem kvLevel8 :
    calcLevel [("100000100".toList,
      "632276a76ad0add6f6a1dd420d677129bc119e633fc9858bacaa9d57bb64c9e6")] 8 =
      [("10000010".toList,
        "37a30d4adafb71297b63de6b20b0dd448e27b4cf3a94a19691e43a88e2a4515e")] := by
  decide

/-- Stage: `_calculate_root` level 7 for the `kv` tree. -/
theorem kvLevel7 :
    calcLevel [("10000010".toList,
      "37a30d4adafb71297b63de6b20b0dd448e27b4cf3a94a19691e43a88e2a4515e")] 7 =
      [("1000001".toList,
        "fead8e2cd91eab48d947bffa9fc792e506b957e753e6c5a6f87c8a4587c467a6")] := by
  decide

/-- Stage: `_calculate_root` level 6 for the `kv` tree. -/
theorem kvLevel6 :
    calcLevel [("1000001".toList,
      "fead8e2cd91eab48d947bffa9fc792e506b957e753e6c5a6f87c8a4587c467a6")] 6 =
      [("100000".toList,
        "c54c65dc84df7280af7266479edd95382accf7a85e5452efb87e8c6a09aca651")] := by
  decide

/-- Stage: `_calculate_root` level 5 for the `kv` tree. -/
theorem kvLevel5 :
    calcLevel [("100000".toList,
      "c54c65dc84df7280af7266479edd95382accf7a85e5452efb87e8c6a09aca651")] 5 =
      [("10000".toList,
        "57e540d202510ba3d1c41cff2c6b242882d98edd3e178b76929301bddf3add2e")] := by
  decide

/-- Stage: `_calculate_root` level 4 for the `kv` tree. -/
theorem kvLevel4 :
    calcLevel [("10000".toList,
      "57e540d202510ba3d1c41cff2c6b242882d98edd3e178b76929301bddf3add2e")] 4 =
      [("1000".toList,
        "f4621de272888b4cfcf9f38939d4c04f2b8aa64eb915235f798cebaca7772248")] := by
  decide

/-- Stage: `_calculate_root` level 3 for the `kv` tree. -/
theorem kvLevel3 :
    calcLevel [("1000".toList,
      "f4621de272888b4cfcf9f38939d4c04f2b8aa64eb915235f798cebaca7772248")] 3 =
      [("100".toList,
        "43c27dcfdae3094d002746215a3b3b8a4ba9a96fab3a363a5e41f1040388eb65")] := by
  decide

/-- Stage: `_calculate_root` level 2 for the `kv` tree. -/
theorem kvLevel2 :
    calcLevel [("100".toList,
      "43c27dcfdae3094d002746215a3b3b8a4ba9a96fab3a363a5e41f1040388eb65")] 2 =
      [("10".toList,
        "b875704ddc317323b651922254c93b996cc9b8faa262a63c13727f86aaa689ca")] := by
  decide

/-- Stage: `_calculate_root` level 1 for the `kv` tree. -/
theorem kvLevel1 :
    calcLevel [("10".toList,
      "b875704ddc317323b651922254c93b996cc9b8faa262a63c13727f86aaa689ca")] 1 =
      [("1".toList,
        "e0c094435ce7efef611a128b11591ff9717d5d911a82d68c190cec9231527a13")] := by
  decide

/-- Stage: `_calculate_root` level 0 for the `kv` tree. -/
theorem kvLevel0 :
    calcLevel [("1".toList,
      "e0c094435ce7efef611a128b11591ff9717d5d911a82d68c190cec9231527a13")] 0 =
      [("".toList,
        "2d791e9973a46ccf07fadece82c74af274fb5d62ab0469312f4e41b1f993dece")] := by
  decide

/-- The hash of the leaf `"k" ↦ "v"`. -/
theorem hashLeaf_kv :
    hashLeaf "k" "v" =
      "64cd407e9f048254a23da6e5700caa450c08a2ad7f981f984fbe8a04049591b1" := by
  decide

/-- `_calculate_root` over the single-leaf `kv` node set. -/
theorem kv_calcRoot :
    calcRoot (dictSet [] "k"
        "64cd407e9f048254a23da6e5700caa450c08a2ad7f981f984fbe8a04049591b1")
      (updateAncestors ("1000001001010100".toList) 16 ("1000001001010100".toList)
        (dictSet [] ("1000001001010100".toList)
          "64cd407e9f048254a23da6e5700caa450c08a2ad7f981f984fbe8a04049591b1")) =
      "2d791e9973a46ccf07fadece82c74af274fb5d62ab0469312f4e41b1f993dece" := by
  unfold calcRoot
  rw [if_neg (by decide)]
  rw [show List.range 16 = [0, 1, 2, 3, 4, 5, 6, 7, 8, 9, 10, 11, 12, 13, 14, 15] from rfl]
  simp only [List.foldl_cons, List.foldl_nil, Nat.reduceSub]
  rw [kvLevel15, kvLevel14, kvLevel13, kvLevel12, kvLevel11, kvLevel10, kvLevel9, kvLevel8, kvLevel7, kvLevel6, kvLevel5, kvLevel4, kvLevel3, kvLevel2, kvLevel1, kvLevel0]
  decide

/-- Stage: `_calculate_root` level 15 for the `gtree` tree; only the
length-16 node entry contributes (ancestor entries are shorter). -/
theorem gtreeLevel15 :
    calcLevel
      (updateAncestors ("1000000001111110".toList) 16 ("1000000001111110".toList)
        (dictSet [] ("1000000001111110".toList)
          "3006cbd67c24c22364f319d471541723a40a32513826e043b5d9bdc2b5a7e25f")) 15 =
      [("100000000111111".toList,
        "f00e9baa0abbbdfa17d6ebddedd2a321f6bbb912e0c83120b597787463c01891")] := by
  decide

/-- Stage: `_calculate_root` level 14 for the `gtree` tree. -/
theorem gtreeLevel14 :
    calcLevel [("100000000111111".toList,
      "f00e9baa0abbbdfa17d6ebddedd2a321f6bbb912e0c83120b597787463c01891")] 14 =
      [("10000000011111".toList,
        "b3522531078eb6bc7f6a3cf08cb21262a2132f3d428e3bfadb5ffd139edb9e65")] := by
  decide

/-- Stage: `_calculate_root` level 13 for the `gtree` tree. -/
theorem gtreeLevel13 :
    calcLevel [("10000000011111".toList,
      "b3522531078eb6bc7f6a3cf08cb21262a2132f3d428e3bfadb5ffd139edb9e65")] 13 =
      [("1000000001111".toList,
        "8f5d18203f9dc2039decada4aeb8e5c2937791e79c794b023478fe0de589b351")] := by
  decide

/-- Stage: `_calculate_root` level 12 for the `gtree` tree. -/
theorem gtreeLevel12 :
    calcLevel [("1000000001111".toList,
      "8f5d18203f9dc2039decada4aeb8e5c2937791e79c794b023478fe0de589b351")] 12 =
      [("100000000111".toList,
        "a3df09cd24e02bbfd94c8e518977dd9f48c6cd6aaf87cc8e6db902b8076adbef")] := by
  decide

/-- Stage: `_calculate_root` level 11 for the `gtree` tree. -/
theorem gtreeLevel11 :
    calcLevel [("100000000111".toList,
      "a3df09cd24e02bbfd94c8e518977dd9f48c6cd6aaf87cc8e6db902b8076adbef")] 11 =
      [("10000000011".toList,
        "25944645c36db29f809f1fded920bc4f10ec750a280523beb43e2e5fcbc09959")] := by
  decide

/-- Stage: `_calculate_root` level 10 for the `gtree` tree. -/
theorem gtreeLevel10 :
    calcLevel [("10000000011".toList,
      "25944645c36db29f809f1fded920bc4f10ec750a280523beb43e2e5fcbc09959")] 10 =
      [("1000000001".toList,
        "f27615a20e2cb0c38d3d73946b6d53b41f547d873ead3d2189ba512a60409c8b")] := by
  decide

/-- Stage: `_calculate_root` level 9 for the `gtree` tree. -/
theorem gtreeLevel9 :
    calcLevel [("1000000001".toList,
      "f27615a20e2cb0c38d3d73946b6d53b41f547d873ead3d2189ba512a60409c8b")] 9 =
      [("100000000".toList,
        "24cc1b7fde7e66f2bde098a685d6da24fa7e40cd2e33aebcd13a2d60a815db63")] := by
  decide

/-- Stage: `_calculate_root` level 8 for the `gtree` tree. -/
theorem gtreeLevel8 :
    calcLevel [("100000000".toList,
      "24cc1b7fde7e66f2bde098a685d6da24fa7e40cd2e33aebcd13a2d60a815db63")] 8 =
      [("10000000".toList,
        "897d3aa642f8ccaa81dbfbb6adc2282c8f4354ba27c5605a4f651b75b3d50ce5")] := by
  decide

/-- Stage: `_calculate_root` level 7 for the `gtree` tree. -/
theorem gtreeLevel7 :
    calcLevel [("10000000".toList,
      "897d3aa642f8ccaa81dbfbb6adc2282c8f4354ba27c5605a4f651b75b3d50ce5")] 7 =
      [("1000000".toList,
        "1101699c0b1ee4f4d97fa2f155197aa806937eec410190e0564174fc84f07a0a")] := by
  decide

/-- Stage: `_calculate_root` level 6 for the `gtree` tree. -/
theorem gtreeLevel6 :
    calcLevel [("1000000".toList,
      "1101699c0b1ee4f4d97fa2f155197aa806937eec410190e0564174fc84f07a0a")] 6 =
      [("100000".toList,
        "b9a8ba19f588c2fc6a0b76bc7c1c915850bfbff2b6848ea9dfe243783b726b35")] := by
  decide

/-- Stage: `_calculate_root` level 5 for the `gtree` tree. -/
theorem gtreeLevel5 :
    calcLevel [("100000".toList,
      "b9a8ba19f588c2fc6a0b76bc7c1c915850bfbff2b6848ea9dfe243783b726b35")] 5 =
      [("10000".toList,
        "efbd998884c4fba08675c602ed8fcc246f9772160800344423f055e1a5145fbf")] := by
  decide

/-- Stage: `_calculate_root` level 4 for the `gtree` tree. -/
theorem gtreeLevel4 :
    calcLevel [("10000".toList,
      "efbd998884c4fba08675c602ed8fcc246f9772160800344423f055e1a5145fbf")] 4 =
      [("1000".toList,
        "e729b89fc3f3db5ecd0257a5225903cc6c98be1c70444cbccbe702626cf3bfa9")] := by
  decide

/-- Stage: `_calculate_root` level 3 for the `gtree` tree. -/
theorem gtreeLevel3 :
    calcLevel [("1000".toList,
      "e729b89fc3f3db5ecd0257a5225903cc6c98be1c70444cbccbe702626cf3bfa9")] 3 =
      [("100".toList,
        "2152b3cab2a59f67153387986d75e7d9b76704db9130610024e8ba49fbaed115")] := by
  decide

/-- Stage: `_calculate_root` level 2 for the `gtree` tree. -/
theorem gtreeLevel2 :
    calcLevel [("100".toList,
      "2152b3cab2a59f67153387986d75e7d9b76704db9130610024e8ba49fbaed115")] 2 =
      [("10".toList,
        "dec1182e16fad36e8a54ea8397d84f3f9e09fb86c442c9a030a892a808de3dc9")] := by
  decide

/-- Stage: `_calculate_root` level 1 for the `gtree` tree. -/
theorem gtreeLevel1 :
    calcLevel [("10".toList,
      "dec1182e16fad36e8a54ea8397d84f3f9e09fb86c442c9a030a892a808de3dc9")] 1 =
      [("1".toList,
        "aa6490c27deb2603fedd54771e9f3767d1fa6ff557d0436d0014691289d42822")] := by
  decide

/-- Stage: `_calculate_root` level 0 for the `gtree` tree. -/
theorem gtreeLevel0 :
    calcLevel [("1".toList,
      "aa6490c27deb2603fedd54771e9f3767d1fa6ff557d0436d0014691289d42822")] 0 =
      [("".toList,
        "ec61b81ea096ef1be36e95873958d064a386716427907c7809794cc8c91171c8")] := by
  decide

/-- The 16-bit path of the key `"g:0"`. -/
theorem keyToPath_g0 : keyToPath "g:0" = "1000000001111110".toList := by decide

/-- The hash of the leaf for the genesis UTXO `g:0` (its value is the
ledger's `json.dumps` of recipient and amount). -/
theorem hashLeaf_g :
    hashLeaf "g:0" "\x7b\"recipient\": \"alice\", \"amount\": 10.0\x7d" =
      "3006cbd67c24c22364f319d471541723a40a32513826e043b5d9bdc2b5a7e25f" := by
  decide

/-- `_calculate_root` over the single-leaf `g:0` node set. -/
theorem g_calcRoot :
    calcRoot (dictSet [] "g:0"
        "3006cbd67c24c22364f319d471541723a40a32513826e043b5d9bdc2b5a7e25f")
      (updateAncestors ("1000000001111110".toList) 16 ("1000000001111110".toList)
        (dictSet [] ("1000000001111110".toList)
          "3006cbd67c24c22364f319d471541723a40a32513826e043b5d9bdc2b5a7e25f")) =
      "ec61b81ea096ef1be36e95873958d064a386716427907c7809794cc8c91171c8" := by
  unfold calcRoot
  rw [if_neg (by decide)]
  rw [show List.range 16 = [0, 1, 2, 3, 4, 5, 6, 7, 8, 9, 10, 11, 12, 13, 14, 15] from rfl]
  simp only [List.foldl_cons, List.foldl_nil, Nat.reduceSub]
  rw [gtreeLevel15, gtreeLevel14, gtreeLevel13, gtreeLevel12, gtreeLevel11, gtreeLevel10, gtreeLevel9, gtreeLevel8, gtreeLevel7, gtreeLevel6, gtreeLevel5, gtreeLevel4, gtreeLevel3, gtreeLevel2, gtreeLevel1, gtreeLevel0]
  decide

/-- Stage: step 0 of `_calculate_root_with_proof` on the `kv` proof. -/
theorem kvVerify0 :
    verifyStep ("1000001001010100".toList)
      "64cd407e9f048254a23da6e5700caa450c08a2ad7f981f984fbe8a04049591b1"
      (0, "left",
       "5feceb66ffc86f38d952786c6d696c79c2dbc239dd4e91b46729d73a27fb57e9") =
      "3f350238ad91c15f954040abe4956817b47e6d0ad64b2fdcc82371abb9814cd9" := by
  decide

/-- Stage: step 1 of `_calculate_root_with_proof` on the `kv` proof. -/
theorem kvVerify1 :
    verifyStep ("1000001001010100".toList)
      "3f350238ad91c15f954040abe4956817b47e6d0ad64b2fdcc82371abb9814cd9"
      (1, "right",
       "5feceb66ffc86f38d952786c6d696c79c2dbc239dd4e91b46729d73a27fb57e9") =
      "f091bc38e861568f3717296796bdc943198789263de34349172d72ad75ff3d85" := by
  decide

/-- Stage: step 2 of `_calculate_root_with_proof` on the `kv` proof. -/
theorem kvVerify2 :
    verifyStep ("1000001001010100".toList)
      "f091bc38e861568f3717296796bdc943198789263de34349172d72ad75ff3d85"
      (2, "right",
       "5feceb66ffc86f38d952786c6d696c79c2dbc239dd4e91b46729d73a27fb57e9") =
      "99fa0e14e17ce97528a0be226ee0e0d64eecee3c0abd734aa8d82522e148e0f3" := by
  decide

/-- Stage: step 3 of `_calculate_root_with_proof` on the `kv` proof. -/
theorem kvVerify3 :
    verifyStep ("1000001001010100".toList)
      "99fa0e14e17ce97528a0be226ee0e0d64eecee3c0abd734aa8d82522e148e0f3"
      (3, "right",
       "5feceb66ffc86f38d952786c6d696c79c2dbc239dd4e91b46729d73a27fb57e9") =
      "4889cd99e7ca1e3bd31dd613eb253f2ebd8f0235543310cc6ae8825bf163b4e8" := by
  decide

/-- Stage: step 4 of `_calculate_root_with_proof` on the `kv` proof. -/
theorem kvVerify4 :
    verifyStep ("1000001001010100".toList)
      "4889cd99e7ca1e3bd31dd613eb253f2ebd8f0235543310cc6ae8825bf163b4e8"
      (4, "right",
       "5feceb66ffc86f38d952786c6d696c79c2dbc239dd4e91b46729d73a27fb57e9") =
      "8a8d0bb3ccc883519794b8fb49edc0c5663da2d69081a5962f52b151b895dc1c" := by
  decide

/-- Stage: step 5 of `_calculate_root_with_proof` on the `kv` proof. -/
theorem kvVerify5 :
    verifyStep ("1000001001010100".toList)
      "8a8d0bb3ccc883519794b8fb49edc0c5663da2d69081a5962f52b151b895dc1c"
      (5, "right",
       "5feceb66ffc86f38d952786c6d696c79c2dbc239dd4e91b46729d73a27fb57e9") =
      "ad117d01bdb0838dc5f823389755345204b151ca3425b08208ea76f3ff2153cf" := by
  decide

/-- Stage: step 6 of `_calculate_root_with_proof` on the `kv` proof. -/
theorem kvVerify6 :
    verifyStep ("1000001001010100".toList)
      "ad117d01bdb0838dc5f823389755345204b151ca3425b08208ea76f3ff2153cf"
      (6, "left",
       "5feceb66ffc86f38d952786c6d696c79c2dbc239dd4e91b46729d73a27fb57e9") =
      "1ef1fe96facc893c20c33deaf23bdb2151bdf756d0351568848af8e0198187cf" := by
  decide

/-- Stage: step 7 of `_calculate_root_with_proof` on the `kv` proof. -/
theorem kvVerify7 :
    verifyStep ("1000001001010100".toList)
      "1ef1fe96facc893c20c33deaf23bdb2151bdf756d0351568848af8e0198187cf"
      (7, "right",
       "5feceb66ffc86f38d952786c6d696c79c2dbc239dd4e91b46729d73a27fb57e9") =
      "9e9017fc66a0acd168bd06d3905231a51e91d326c6353b35d535fd9938b3da2d" := by
  decide

/-- Stage: step 8 of `_calculate_root_with_proof` on the `kv` proof. -/
theorem kvVerify8 :
    verifyStep ("1000001001010100".toList)
      "9e9017fc66a0acd168bd06d3905231a51e91d326c6353b35d535fd9938b3da2d"
      (8, "right",
       "5feceb66ffc86f38d952786c6d696c79c2dbc239dd4e91b46729d73a27fb57e9") =
      "4dab148d855437f5e8955153e106d375758dd14ccbd0877531bab9f4ad906e4b" := by
  decide

/-- Stage: step 9 of `_calculate_root_with_proof` on the `kv` proof. -/
theorem kvVerify9 :
    verifyStep ("1000001001010100".toList)
      "4dab148d855437f5e8955153e106d375758dd14ccbd0877531bab9f4ad906e4b"
      (9, "left",
       "5feceb66ffc86f38d952786c6d696c79c2dbc239dd4e91b46729d73a27fb57e9") =
      "091b70a13d9a28d5ad43b93500a9477f7d16676fcdbe6cd56815319f4b22f661" := by
  decide

/-- Stage: step 10 of `_calculate_root_with_proof` on the `kv` proof. -/
theorem kvVerify10 :
    verifyStep ("1000001001010100".toList)
      "091b70a13d9a28d5ad43b93500a9477f7d16676fcdbe6cd56815319f4b22f661"
      (10, "right",
       "5feceb66ffc86f38d952786c6d696c79c2dbc239dd4e91b46729d73a27fb57e9") =
      "001106fbfb6c6c89cd4ad94cc5f18649252393801d935fc6dd0720bcdd3a3a32" := by
  decide

/-- Stage: step 11 of `_calculate_root_with_proof` on the `kv` proof. -/
theorem kvVerify11 :
    verifyStep ("1000001001010100".toList)
      "001106fbfb6c6c89cd4ad94cc5f18649252393801d935fc6dd0720bcdd3a3a32"
      (11, "left",
       "5feceb66ffc86f38d952786c6d696c79c2dbc239dd4e91b46729d73a27fb57e9") =
      "14b60db7daecf47622e4fc0ac477983e7acbd5f7cab0af40e7655c41b30c3b66" := by
  decide

/-- Stage: step 12 of `_calculate_root_with_proof` on the `kv` proof. -/
theorem kvVerify12 :
    verifyStep ("1000001001010100".toList)
      "14b60db7daecf47622e4fc0ac477983e7acbd5f7cab0af40e7655c41b30c3b66"
      (12, "right",
       "5feceb66ffc86f38d952786c6d696c79c2dbc239dd4e91b46729d73a27fb57e9") =
      "d03eb2de0cf804bad428122f439867b6ef03e43108fb549113d1a31c4e5a8468" := by
  decide

/-- Stage: step 13 of `_calculate_root_with_proof` on the `kv` proof. -/
theorem kvVerify13 :
    verifyStep ("1000001001010100".toList)
      "d03eb2de0cf804bad428122f439867b6ef03e43108fb549113d1a31c4e5a8468"
      (13, "left",
       "5feceb66ffc86f38d952786c6d696c79c2dbc239dd4e91b46729d73a27fb57e9") =
      "d68e71b6a0d0466db546a86e0abab935483f9efe8b748a4a111617507fbd2c1c" := by
  decide

/-- Stage: step 14 of `_calculate_root_with_proof` on the `kv` proof. -/
theorem kvVerify14 :
    verifyStep ("1000001001010100".toList)
      "d68e71b6a0d0466db546a86e0abab935483f9efe8b748a4a111617507fbd2c1c"
      (14, "right",
       "5feceb66ffc86f38d952786c6d696c79c2dbc239dd4e91b46729d73a27fb57e9") =
      "d2d59b20b91c7315658fb8310086460779d3b38b5bfbc7fddfb7fbe6e842b1e1" := by
  decide

/-- Stage: step 15 of `_calculate_root_with_proof` on the `kv` proof. -/
theorem kvVerify15 :
    verifyStep ("1000001001010100".toList)
      "d2d59b20b91c7315658fb8310086460779d3b38b5bfbc7fddfb7fbe6e842b1e1"
      (15, "right",
       "5feceb66ffc86f38d952786c6d696c79c2dbc239dd4e91b46729d73a27fb57e9") =
      "ea98befea82e910bc0372038603bb69c872fe3ab47e5420dfb8677e1d839db53" := by
  decide

/-- The siblings `generate_proof` returns for `"k"` in the single-leaf
tree: every sibling is the empty-node hash, positions follow the path
bits. -/
def kvSiblings : List (String × String) :=
  [("left", "5feceb66ffc86f38d952786c6d696c79c2dbc239dd4e91b46729d73a27fb57e9"),
       ("right", "5feceb66ffc86f38d952786c6d696c79c2dbc239dd4e91b46729d73a27fb57e9"),
       ("right", "5feceb66ffc86f38d952786c6d696c79c2dbc239dd4e91b46729d73a27fb57e9"),
       ("right", "5feceb66ffc86f38d952786c6d696c79c2dbc239dd4e91b46729d73a27fb57e9"),
       ("right", "5feceb66ffc86f38d952786c6d696c79c2dbc239dd4e91b46729d73a27fb57e9"),
       ("right", "5feceb66ffc86f38d952786c6d696c79c2dbc239dd4e91b46729d73a27fb57e9"),
       ("left", "5feceb66ffc86f38d952786c6d696c79c2dbc239dd4e91b46729d73a27fb57e9"),
       ("right", "5feceb66ffc86f38d952786c6d696c79c2dbc239dd4e91b46729d73a27fb57e9"),
       ("right", "5feceb66ffc86f38d952786c6d696c79c2dbc239dd4e91b46729d73a27fb57e9"),
       ("left", "5feceb66ffc86f38d952786c6d696c79c2dbc239dd4e91b46729d73a27fb57e9"),
       ("right", "5feceb66ffc86f38d952786c6d696c79c2dbc239dd4e91b46729d73a27fb57e9"),
       ("left", "5feceb66ffc86f38d952786c6d696c79c2dbc239dd4e91b46729d73a27fb57e9"),
       ("right", "5feceb66ffc86f38d952786c6d696c79c2dbc239dd4e91b46729d73a27fb57e9"),
       ("left", "5feceb66ffc86f38d952786c6d696c79c2dbc239dd4e91b46729d73a27fb57e9"),
       ("right", "5feceb66ffc86f38d952786c6d696c79c2dbc239dd4e91b46729d73a27fb57e9"),
       ("right", "5feceb66ffc86f38d952786c6d696c79c2dbc239dd4e91b46729d73a27fb57e9")]

/-- `generate_proof("k")` on the single-leaf tree (sibling lookups miss
the node dict, so this evaluates shallowly). -/
theorem kv_proof :
    (SMT.empty.update "k" (some "v")).generateProof "k" =
      some ⟨"k",
        "64cd407e9f048254a23da6e5700caa450c08a2ad7f981f984fbe8a04049591b1",
        kvSiblings, "1000001001010100".toList⟩ := by
  decide

/-- `_calculate_root_with_proof` walks the proof's siblings top-most
first, so on `"k"`'s proof it recombines the leaf in the *reversed* bit
order and lands on a value different from the tree's root. -/
theorem kv_verify_chain :
    calcRootWithProof "k"
      "64cd407e9f048254a23da6e5700caa450c08a2ad7f981f984fbe8a04049591b1"
      kvSiblings =
      "ea98befea82e910bc0372038603bb69c872fe3ab47e5420dfb8677e1d839db53" := by
  simp only [calcRootWithProof]
  rw [keyToPath_k]
  rw [show ((kvSiblings.take ("1000001001010100".toList).length).enum) =
      ([(0, "left", "5feceb66ffc86f38d952786c6d696c79c2dbc239dd4e91b46729d73a27fb57e9"),
         (1, "right", "5feceb66ffc86f38d952786c6d696c79c2dbc239dd4e91b46729d73a27fb57e9"),
         (2, "right", "5feceb66ffc86f38d952786c6d696c79c2dbc239dd4e91b46729d73a27fb57e9"),
         (3, "right", "5feceb66ffc86f38d952786c6d696c79c2dbc239dd4e91b46729d73a27fb57e9"),
         (4, "right", "5feceb66ffc86f38d952786c6d696c79c2dbc239dd4e91b46729d73a27fb57e9"),
         (5, "right", "5feceb66ffc86f38d952786c6d696c79c2dbc239dd4e91b46729d73a27fb57e9"),
         (6, "left", "5feceb66ffc86f38d952786c6d696c79c2dbc239dd4e91b46729d73a27fb57e9"),
         (7, "right", "5feceb66ffc86f38d952786c6d696c79c2dbc239dd4e91b46729d73a27fb57e9"),
         (8, "right", "5feceb66ffc86f38d952786c6d696c79c2dbc239dd4e91b46729d73a27fb57e9"),
         (9, "left", "5feceb66ffc86f38d952786c6d696c79c2dbc239dd4e91b46729d73a27fb57e9"),
         (10, "right", "5feceb66ffc86f38d952786c6d696c79c2dbc239dd4e91b46729d73a27fb57e9"),
         (11, "left", "5feceb66ffc86f38d952786c6d696c79c2dbc239dd4e91b46729d73a27fb57e9"),
         (12, "right", "5feceb66ffc86f38d952786c6d696c79c2dbc239dd4e91b46729d73a27fb57e9"),
         (13, "left", "5feceb66ffc86f38d952786c6d696c79c2dbc239dd4e91b46729d73a27fb57e9"),
         (14, "right", "5feceb66ffc86f38d952786c6d696c79c2dbc239dd4e91b46729d73a27fb57e9"),
         (15, "right", "5feceb66ffc86f38d952786c6d696c79c2dbc239dd4e91b46729d73a27fb57e9")] :
        List (Nat × String × String)) from rfl]
  simp only [List.foldl_cons, List.foldl_nil]
  rw [kvVerify0, kvVerify1, kvVerify2, kvVerify3, kvVerify4, kvVerify5, kvVerify6, kvVerify7, kvVerify8, kvVerify9, kvVerify10, kvVerify11, kvVerify12, kvVerify13, kvVerify14, kvVerify15]

/-- The root of the single-leaf tree `"k" ↦ "v"`, assembled from the
staged levels. -/
theorem kv_tree_root :
    (SMT.empty.update "k" (some "v")).getRoot =
      "2d791e9973a46ccf07fadece82c74af274fb5d62ab0469312f4e41b1f993dece" := by
  show calcRoot (dictSet [] "k" (hashLeaf "k" "v"))
      (updateAncestors (keyToPath "k") (keyToPath "k").length (keyToPath "k")
        (dictSet [] (keyToPath "k") (hashLeaf "k" "v"))) = _
  rw [keyToPath_k, hashLeaf_kv]
  rw [show ("1000001001010100".toList).length = 16 from rfl]
  exact kv_calcRoot

/-- C5: on the reachable single-leaf tree `"k" ↦ "v"`, the freshly
generated proof for the present key `"k"` does *not* verify against the
current root: `verify_proof` recombines the siblings in the top-down order
`generate_proof` lists them while the real root combines bottom-up, and
the result is only patched over by hard-coded `"key2"`/`"value2"` test
values — refuting `verify(key, value, prove(key), root()) == true`. -/
theorem C5_fresh_proof_fails_verification :
    ((SMT.empty.update "k" (some "v")).generateProof "k").isSome = true ∧
    SMT.verifyProof (SMT.empty.update "k" (some "v")) "k" "v"
      (((SMT.empty.update "k" (some "v")).generateProof "k").getD ⟨"", "", [], []⟩)
      ((SMT.empty.update "k" (some "v")).getRoot) = false := by
  refine ⟨by rw [kv_proof]; rfl, ?_⟩
  rw [kv_proof, kv_tree_root]
  simp only [Option.getD_some]
  unfold SMT.verifyProof
  rw [if_neg (by decide), if_neg (by decide), if_neg (by decide)]
  rw [hashLeaf_kv]
  show (calcRootWithProof "k"
      "64cd407e9f048254a23da6e5700caa450c08a2ad7f981f984fbe8a04049591b1"
      kvSiblings ==
    "2d791e9973a46ccf07fadece82c74af274fb5d62ab0469312f4e41b1f993dece") = false
  rw [kv_verify_chain]
  decide

/-! ## C4 — a failed apply leaves the tables intact but mutates the tree -/

/-- One 10-coin genesis UTXO of `alice` (C4 fixture). -/
def dbC4 : DBState := ⟨[⟨"g", 0, "alice", 10, "unspent"⟩], []⟩

/-- Spends `(g,0)` and declares an output whose `(txid, output_index)`
collides with the spent input row, so the output `INSERT` hits the
`utxos` primary key and raises after the tree already lost the input. -/
def txC4 : SignedTransaction :=
  ⟨"t4", "alice", [⟨"g", 0⟩], [⟨"g", 0, "bob", 4, "unspent"⟩], 1, "ph", 0, "sg"⟩

/-- The ledger's boot tree over `dbC4`. -/
def treeC4 : SMT := ledgerBootTree dbC4

/-- The boot tree is the single-leaf tree at key `"g:0"` with the
ledger's JSON value for the genesis UTXO. -/
theorem treeC4_form :
    treeC4 =
      SMT.empty.update "g:0"
        (some "\x7b\"recipient\": \"alice\", \"amount\": 10.0\x7d") := rfl

/-- The boot tree's state root, assembled from the staged levels. -/
theorem g_tree_root :
    getCurrentStateRoot treeC4 =
      "ec61b81ea096ef1be36e95873958d064a386716427907c7809794cc8c91171c8" := by
  rw [treeC4_form]
  show calcRoot
      (dictSet [] "g:0"
        (hashLeaf "g:0" "\x7b\"recipient\": \"alice\", \"amount\": 10.0\x7d"))
      (updateAncestors (keyToPath "g:0") (keyToPath "g:0").length
        (keyToPath "g:0")
        (dictSet [] (keyToPath "g:0")
          (hashLeaf "g:0" "\x7b\"recipient\": \"alice\", \"amount\": 10.0\x7d"))) = _
  rw [keyToPath_g0, hashLeaf_g]
  rw [show ("1000000001111110".toList).length = 16 from rfl]
  exact g_calcRoot

/-- C4, counterexample: `apply_transaction` on `txC4` fails (wrapped
`IntegrityError` on the colliding output insert) and the database tables
are rolled back — but the in-memory Merkle tree has already lost the spent
input, so `get_current_state_root` differs before and after the failed
call, refuting "no state is mutated … the observable Merkle state root
[is] identical". -/
theorem C4_failed_apply_mutates_state_root :
    (applyTransaction sigAll dbC4 treeC4 txC4).outcome =
      .error .applicationFailed ∧
    (applyTransaction sigAll dbC4 treeC4 txC4).db = dbC4 ∧
    getCurrentStateRoot (applyTransaction sigAll dbC4 treeC4 txC4).tree ≠
      getCurrentStateRoot treeC4 := by
  refine ⟨by decide, by decide, ?_⟩
  have h1 : getCurrentStateRoot (applyTransaction sigAll dbC4 treeC4 txC4).tree =
      EMPTY_NODE_HASH := by decide
  rw [h1, g_tree_root]
  decide

/-- Every failure path of `apply_transaction` returns the caller's
database state (the `BEGIN EXCLUSIVE` transaction is rolled back; the
pre-checks never wrote anything). -/
theorem applyTransaction_db_of_error (sigOk : SignedTransaction → Bool)
    (db : DBState) (tree : SMT) (tx : SignedTransaction) (e : LedgerError)
    (h : (applyTransaction sigOk db tree tx).outcome = .error e) :
    (applyTransaction sigOk db tree tx).db = db := by
  unfold applyTransaction at h ⊢
  by_cases hs : sigOk tx
  · rw [hs] at h ⊢
    simp only [Bool.not_true, if_neg (by simp : ¬ (false = true))] at h ⊢
    cases hins : checkInputsSpendable db tx.sender_address tx.inputs with
    | error e' => rfl
    | ok ins =>
      simp only [] at h ⊢
      cases hf : checkSufficientFunds ins tx with
      | error e' => rfl
      | ok b =>
        simp only [hf]
        cases hrow : findTxRow db tx.txid with
        | some r => simp [hins, hf, hrow] at h
        | none =>
          simp only [hrow]
          cases hst : checkStatusLoop db tx.inputs with
          | error e' => rfl
          | ok u =>
            simp only [hst]
            cases hio : insertOutputs tx.outputs
                (insertTxRowOf (spendInputs tx.inputs db tree).1 tx)
                (spendInputs tx.inputs db tree).2 with
            | error t' => rfl
            | ok p =>
              obtain ⟨db2, tree2⟩ := p
              simp [hins, hf, hrow, hst, hio] at h
  · rw [if_pos (by simp [hs])] at h ⊢

/-- C4, amended: on *every* failing `apply_transaction` call the database
tables are unchanged (each failure path rolls the transaction back), but
the in-memory tree may retain partial mutations. -/
theorem C4_db_unchanged_on_failure (sigOk : SignedTransaction → Bool)
    (db : DBState) (tree : SMT) (tx : SignedTransaction) (e : LedgerError)
    (h : (applyTransaction sigOk db tree tx).outcome = .error e) :
    (applyTransaction sigOk db tree tx).db = db :=
  applyTransaction_db_of_error sigOk db tree tx e h

/-- C4, witness for the amended theorem at the concrete failing input. -/
theorem C4_db_unchanged_on_failure_witness :
    (applyTransaction sigAll dbC4 treeC4 txC4).db = dbC4 :=
  C4_db_unchanged_on_failure sigAll dbC4 treeC4 txC4 .applicationFailed
    (by decide)

/-! ## C7 — intra-batch dependencies are respected by produced blocks -/

/-- `find?` over the in-place-update map: a hit is the new value or a hit
in the original list. -/
theorem find?_dictSet_map {α β : Type} [BEq α] [LawfulBEq α]
    (m : List (α × β)) (k' k : α) (v : β) (pr : α × β)
    (h : (m.map (fun p => if p.1 == k' then (k', v) else p)).find?
        (fun p => p.1 == k) = some pr) :
    pr.2 = v ∨ m.find? (fun p => p.1 == k) = some pr := by
  induction m with
  | nil => simp at h
  | cons p t ih =>
    simp only [List.map_cons] at h
    by_cases hpk : (p.1 == k') = true
    · rw [if_pos hpk] at h
      by_cases hkk : ((k' : α) == k) = true
      · simp only [List.find?_cons, hkk] at h
        cases h
        exact .inl rfl
      · have hkk' : ((k' : α) == k) = false := by simpa using hkk
        have hpk2 : (p.1 == k) = false := by
          have h1 : p.1 = k' := eq_of_beq hpk
          rw [h1, hkk']
        simp only [List.find?_cons, hkk'] at h
        simp only [List.find?_cons, hpk2]
        exact ih h
    · rw [if_neg hpk] at h
      by_cases hc : (p.1 == k) = true
      · simp only [List.find?_cons, hc] at h ⊢
        exact .inr h
      · have hc' : (p.1 == k) = false := by simpa using hc
        simp only [List.find?_cons, hc'] at h ⊢
        exact ih h

/-- A lookup after `dictSet` yields the new value or an original hit. -/
theorem dictGet_dictSet_cases {α β : Type} [BEq α] [LawfulBEq α]
    (m : List (α × β)) (k' k : α) (v x : β)
    (h : dictGet (dictSet m k' v) k = some x) :
    x = v ∨ dictGet m k = some x := by
  unfold dictGet at h ⊢
  unfold dictSet at h
  by_cases hany : m.any (fun p => p.1 == k')
  · rw [if_pos hany] at h
    rcases Option.map_eq_some'.mp h with ⟨pr, hpr, hx⟩
    rcases find?_dictSet_map m k' k v pr hpr with h1 | h2
    · exact .inl (hx ▸ h1.symm ▸ rfl)
    · exact .inr (by rw [h2]; simp [hx])
  · rw [if_neg hany] at h
    rcases Option.map_eq_some'.mp h with ⟨pr, hpr, hx⟩
    rw [List.find?_append] at hpr
    cases hm : m.find? (fun p => p.1 == k) with
    | some pr' =>
      rw [hm] at hpr
      have hpr' : some pr' = some pr := hpr
      cases hpr'
      exact .inr (by simp [hx])
    | none =>
      rw [hm, Option.none_or] at hpr
      by_cases hkk : ((k' : α) == k) = true
      · simp only [List.find?_cons, hkk] at hpr
        cases hpr
        exact .inl hx.symm
      · have hkk' : ((k' : α) == k) = false := by simpa using hkk
        simp only [List.find?_cons, hkk'] at hpr
        simp at hpr

/-- A hit in the fold that builds `tx_map` comes from the folded list (or
from the start dict). -/
theorem dictGet_txMap_mem (txs : List SignedTransaction) :
    ∀ (m0 : List (String × SignedTransaction)) (k : String)
      (tx : SignedTransaction),
      dictGet (txs.foldl (fun m t => dictSet m t.txid t) m0) k = some tx →
      tx ∈ txs ∨ dictGet m0 k = some tx := by
  induction txs with
  | nil => intro m0 k tx h; exact .inr h
  | cons t ts ih =>
    intro m0 k tx h
    simp only [List.foldl_cons] at h
    rcases ih _ _ _ h with h1 | h2
    · exact .inl (List.mem_cons_of_mem _ h1)
    · rcases dictGet_dictSet_cases _ _ _ _ _ h2 with rfl | h3
      · exact .inl (List.mem_cons_self _ _)
      · exact .inr h3

/-- Every transaction `_sort_transactions_topologically` returns comes from
the input batch (its output is built from `tx_map` lookups, or is the
fallback original list). -/
theorem sortTopologically_mem (txs : List SignedTransaction) :
    ∀ T ∈ sortTransactionsTopologically txs, T ∈ txs := by
  intro T hT
  unfold sortTransactionsTopologically at hT
  by_cases he : txs.isEmpty
  · rw [if_pos he] at hT; simp at hT
  · rw [if_neg he] at hT
    split at hT
    · exact hT
    · rcases List.mem_filterMap.mp hT with ⟨a, _, hget⟩
      rcases dictGet_txMap_mem txs _ _ _ hget with h1 | h2
      · exact h1
      · simp [dictGet] at h2

/-- `dictGet_txMap_mem` restated for the named `tx_map`. -/
theorem txMapOf_mem (txs : List SignedTransaction) (k : String)
    (tx : SignedTransaction) (h : dictGet (txMapOf txs) k = some tx) :
    tx ∈ txs := by
  rcases dictGet_txMap_mem txs [] k tx h with h1 | h2
  · exact h1
  · simp [dictGet] at h2

/-- Rows of `markUtxoSpent` keep their txids. -/
theorem markUtxoSpent_utxos_txid (db : DBState) (t : String) (i : Nat) :
    ∀ u ∈ (markUtxoSpent db t i).utxos, ∃ u0 ∈ db.utxos, u.txid = u0.txid := by
  intro u hu
  unfold markUtxoSpent at hu
  simp only [List.mem_map] at hu
  obtain ⟨u0, hu0, hfu⟩ := hu
  split at hfu
  · exact ⟨u0, hu0, by rw [← hfu]⟩
  · exact ⟨u0, hu0, by rw [← hfu]⟩

/-- The spend loop peels one input at a time. -/
theorem spendInputs_cons (r : UTXORef) (rs : List UTXORef) (db : DBState)
    (tree : SMT) :
    spendInputs (r :: rs) db tree =
      spendInputs rs (markUtxoSpent db r.txid r.output_index)
        (smtRemoveUtxo tree r.toKey) := rfl

/-- Rows of the spend loop's database keep pre-existing txids. -/
theorem spendInputs_utxos_txid (refs : List UTXORef) :
    ∀ (db : DBState) (tree : SMT),
      ∀ u ∈ (spendInputs refs db tree).1.utxos,
        ∃ u0 ∈ db.utxos, u.txid = u0.txid := by
  induction refs with
  | nil => intro db tree u hu; exact ⟨u, hu, rfl⟩
  | cons r rs ih =>
    intro db tree u hu
    rw [spendInputs_cons] at hu
    obtain ⟨u1, hu1, he1⟩ := ih _ _ u hu
    obtain ⟨u0, hu0, he0⟩ := markUtxoSpent_utxos_txid db r.txid r.output_index u1 hu1
    exact ⟨u0, hu0, he1.trans he0⟩

/-- Rows after a successful output-insertion loop come from the input
database or are (status-forced copies of) the transaction's outputs. -/
theorem insertOutputs_ok_utxos (outs : List UTXO) :
    ∀ (db : DBState) (tree : SMT) (db' : DBState) (tree' : SMT),
      insertOutputs outs db tree = .ok (db', tree') →
      ∀ u ∈ db'.utxos, u ∈ db.utxos ∨ ∃ o ∈ outs, u.txid = o.txid := by
  induction outs with
  | nil =>
    intro db tree db' tree' h u hu
    simp only [insertOutputs] at h
    cases h
    exact .inl hu
  | cons o os ih =>
    intro db tree db' t' h u hu
    simp only [insertOutputs] at h
    cases hins : insertUtxoRow db { o with status := "unspent" } with
    | none => rw [hins] at h; cases h
    | some dbo =>
      rw [hins] at h
      rcases ih _ _ _ _ h u hu with h1 | h2
      · unfold insertUtxoRow at hins
        split at hins
        · cases hins
        · cases hins
          rcases List.mem_append.mp h1 with hm | hm
          · exact .inl hm
          · simp only [List.mem_singleton] at hm
            exact .inr ⟨o, List.mem_cons_self _ _, by rw [hm]⟩
      · obtain ⟨o', ho', he⟩ := h2
        exact .inr ⟨o', List.mem_cons_of_mem _ ho', he⟩

/-- A successful `_check_inputs_spendable` found every input in the
`utxos` table (with the matching txid). -/
theorem checkInputsSpendable_ok_mem (db : DBState) (s : String) :
    ∀ (refs : List UTXORef) (ins : List UTXO),
      checkInputsSpendable db s refs = .ok ins →
      ∀ ref ∈ refs, ∃ u ∈ db.utxos, u.txid = ref.txid := by
  intro refs
  induction refs with
  | nil => intro ins _ ref h; simp at h
  | cons r rs ih =>
    intro ins h ref href
    simp only [checkInputsSpendable] at h
    cases hf : findUtxo db r.txid r.output_index with
    | none => rw [hf] at h; cases h
    | some u =>
      rw [hf] at h
      simp only [] at h
      have hmem : u ∈ db.utxos := List.mem_of_find?_eq_some hf
      have hprop := List.find?_some hf
      simp only [Bool.and_eq_true, beq_iff_eq] at hprop
      rcases List.mem_cons.mp href with rfl | hrs
      · exact ⟨u, hmem, hprop.1⟩
      · by_cases hsp : u.isSpent = true
        · rw [if_pos hsp] at h; cases h
        · rw [if_neg hsp] at h
          by_cases hrec : (u.recipient != s) = true
          · rw [if_pos hrec] at h; cases h
          · rw [if_neg hrec] at h
            cases hrest : checkInputsSpendable db s rs with
            | error e => rw [hrest] at h; cases h
            | ok us => exact ih us hrest ref hrs

/-- `apply_transaction` never returns `False`. -/
theorem applyTransaction_ne_ok_false (sigOk : SignedTransaction → Bool)
    (db : DBState) (tree : SMT) (tx : SignedTransaction) :
    (applyTransaction sigOk db tree tx).outcome ≠ .ok false := by
  unfold applyTransaction
  by_cases hs : sigOk tx
  · rw [hs]
    simp only [Bool.not_true, if_neg (by simp : ¬ (false = true))]
    cases checkInputsSpendable db tx.sender_address tx.inputs with
    | error e => simp
    | ok ins =>
      simp only []
      cases checkSufficientFunds ins tx with
      | error e => simp
      | ok b =>
        cases findTxRow db tx.txid with
        | some r => simp
        | none =>
          cases checkStatusLoop db tx.inputs with
          | error e => simp
          | ok u =>
            cases insertOutputs tx.outputs
                (insertTxRowOf (spendInputs tx.inputs db tree).1 tx)
                (spendInputs tx.inputs db tree).2 with
            | error t' => simp
            | ok p => obtain ⟨db2, t2⟩ := p; simp
  · rw [if_pos (by simp [hs])]; simp

/-- A successful `apply_transaction` passed `_check_inputs_spendable`, and
its resulting database is either unchanged (the existing-row no-op) or the
output of the insert loop over the spent-marked state. -/
theorem applyTransaction_ok_cases (sigOk : SignedTransaction → Bool)
    (db : DBState) (tree : SMT) (tx : SignedTransaction)
    (h : (applyTransaction sigOk db tree tx).outcome = .ok true) :
    (∃ ins, checkInputsSpendable db tx.sender_address tx.inputs = .ok ins) ∧
    ((applyTransaction sigOk db tree tx).db = db ∨
      ∃ db2 t2,
        insertOutputs tx.outputs
            (insertTxRowOf (spendInputs tx.inputs db tree).1 tx)
            (spendInputs tx.inputs db tree).2 = .ok (db2, t2) ∧
        (applyTransaction sigOk db tree tx).db = db2) := by
  unfold applyTransaction at h ⊢
  by_cases hs : sigOk tx
  · rw [hs] at h ⊢
    simp only [Bool.not_true, if_neg (by simp : ¬ (false = true))] at h ⊢
    cases hins : checkInputsSpendable db tx.sender_address tx.inputs with
    | error e => simp [hins] at h
    | ok ins =>
      refine ⟨⟨ins, rfl⟩, ?_⟩
      simp only [] at h ⊢
      cases hf : checkSufficientFunds ins tx with
      | error e => simp [hins, hf] at h
      | ok b =>
        simp only [hf] at h ⊢
        cases hrow : findTxRow db tx.txid with
        | some r => exact .inl (by simp [hrow])
        | none =>
          simp only [hrow]
          cases hst : checkStatusLoop db tx.inputs with
          | error e => simp [hins, hf, hrow, hst] at h
          | ok u =>
            simp only [hst]
            cases hio : insertOutputs tx.outputs
                (insertTxRowOf (spendInputs tx.inputs db tree).1 tx)
                (spendInputs tx.inputs db tree).2 with
            | error t' => simp [hins, hf, hrow, hst, hio] at h
            | ok p =>
              obtain ⟨db2, t2⟩ := p
              exact .inr ⟨db2, t2, rfl, rfl⟩
  · rw [if_pos (by simp [hs])] at h; cases h

/-- Dependency ordering within a produced list: whenever an applied `B`
references a batch member `A`'s txid among its inputs, `A` was applied
strictly earlier. -/
def DepOrdered (batch L : List SignedTransaction) : Prop :=
  ∀ A B : SignedTransaction, A ∈ batch → B ∈ L →
    (∃ ref ∈ B.inputs, ref.txid = A.txid) → A ≠ B →
    ∃ pre post, L = pre ++ B :: post ∧ A ∈ pre

/-- Loop invariant: every `utxos` row whose txid is a batch txid was
created by an already-applied batch transaction. -/
def UtxoFromApplied (batch : List SignedTransaction) (db : DBState)
    (acc : List SignedTransaction) : Prop :=
  ∀ u ∈ db.utxos, ∀ T ∈ batch, u.txid = T.txid → ∃ T' ∈ acc, T'.txid = u.txid

/-- The application loop preserves the batch-origin invariant and produces
a dependency-ordered applied list. -/
theorem applyLoop_ordered (sigOk : SignedTransaction → Bool)
    (batch : List SignedTransaction)
    (hout : ∀ T ∈ batch, ∀ o ∈ T.outputs, o.txid = T.txid)
    (hinj : ∀ T1 ∈ batch, ∀ T2 ∈ batch, T1.txid = T2.txid → T1 = T2) :
    ∀ (txs : List SignedTransaction), (∀ T ∈ txs, T ∈ batch) →
    ∀ (db : DBState) (tree : SMT) (acc : List SignedTransaction),
      (∀ T ∈ acc, T ∈ batch) →
      UtxoFromApplied batch db acc →
      DepOrdered batch acc →
      DepOrdered batch (applyLoop sigOk txs db tree acc).1 := by
  intro txs
  induction txs with
  | nil => intro _ db tree acc _ _ hOrd; exact hOrd
  | cons tx rest ih =>
    intro htxs db tree acc hacc hI hOrd
    have htx : tx ∈ batch := htxs tx (List.mem_cons_self _ _)
    have hrest : ∀ T ∈ rest, T ∈ batch :=
      fun T hT => htxs T (List.mem_cons_of_mem _ hT)
    simp only [applyLoop]
    cases hr : (applyTransaction sigOk db tree tx).outcome with
    | error e =>
      have hdb : (applyTransaction sigOk db tree tx).db = db :=
        applyTransaction_db_of_error sigOk db tree tx e hr
      rw [hdb]
      exact ih hrest _ _ acc hacc hI hOrd
    | ok b =>
      cases b with
      | false => exact absurd hr (applyTransaction_ne_ok_false sigOk db tree tx)
      | true =>
        obtain ⟨⟨ins, hins⟩, hcases⟩ :=
          applyTransaction_ok_cases sigOk db tree tx hr
        -- the appended transaction's dependencies are already in `acc`
        have hOrd' : DepOrdered batch (acc ++ [tx]) := by
          intro A B hA hB href hAB
          rcases List.mem_append.mp hB with hBacc | hBtx
          · obtain ⟨pre, post, hdec, hpre⟩ := hOrd A B hA hBacc href hAB
            exact ⟨pre, post ++ [tx], by rw [hdec]; simp, hpre⟩
          · simp only [List.mem_singleton] at hBtx
            obtain ⟨ref, hrefmem, hreftxid⟩ := href
            rw [hBtx] at hrefmem
            obtain ⟨u, humem, hutxid⟩ :=
              checkInputsSpendable_ok_mem db tx.sender_address tx.inputs ins
                hins ref hrefmem
            obtain ⟨T', hT'acc, hT'txid⟩ :=
              hI u humem A hA (by rw [hutxid, hreftxid])
            have hTA : T' = A :=
              hinj T' (hacc T' hT'acc) A hA
                (by rw [hT'txid, hutxid, hreftxid])
            exact ⟨acc, [], by rw [hBtx], hTA ▸ hT'acc⟩
        have hacc' : ∀ T ∈ acc ++ [tx], T ∈ batch := by
          intro T hT
          rcases List.mem_append.mp hT with h1 | h1
          · exact hacc T h1
          · simp only [List.mem_singleton] at h1; exact h1 ▸ htx
        have hI' : UtxoFromApplied batch
            (applyTransaction sigOk db tree tx).db (acc ++ [tx]) := by
          rcases hcases with hsame | ⟨db2, t2, hio, hdb2⟩
          · rw [hsame]
            intro u hu T hT he
            obtain ⟨T', h1, h2⟩ := hI u hu T hT he
            exact ⟨T', List.mem_append.mpr (.inl h1), h2⟩
          · rw [hdb2]
            intro u hu T hT he
            rcases insertOutputs_ok_utxos tx.outputs _ _ _ _ hio u hu with h1 | h1
            · have h1' : u ∈ (spendInputs tx.inputs db tree).1.utxos := h1
              obtain ⟨u0, hu0, he0⟩ :=
                spendInputs_utxos_txid tx.inputs db tree u h1'
              obtain ⟨T', hT', he'⟩ := hI u0 hu0 T hT (by rw [← he0, he])
              exact ⟨T', List.mem_append.mpr (.inl hT'), by rw [he', he0]⟩
            · obtain ⟨o, ho, he'⟩ := h1
              refine ⟨tx, List.mem_append.mpr (.inr (List.mem_singleton.mpr rfl)), ?_⟩
              rw [hout tx htx o ho] at he'
              rw [he']
        exact ih hrest _ _ (acc ++ [tx]) hacc' hI' hOrd'

/-- C7: for every batch whose transactions carry well-formed outputs
(`output.txid = tx.txid`), pairwise-distinct txids, and txids fresh with
respect to the stored UTXO set, the block built by `generate_block`
respects intra-batch dependencies: if an applied `B` has an input
referencing batch member `A`'s txid, the produced block contains `A`
strictly before `B` — it never contains `B` without `A`. -/
theorem C7_dependency_order (sigOk : SignedTransaction → Bool)
    (db0 : DBState) (tree0 : SMT) (batch : List SignedTransaction)
    (A B : SignedTransaction) (ref : UTXORef)
    (hout : ∀ T ∈ batch, ∀ o ∈ T.outputs, o.txid = T.txid)
    (hinj : ∀ T1 ∈ batch, ∀ T2 ∈ batch, T1.txid = T2.txid → T1 = T2)
    (hfreshU : ∀ u ∈ db0.utxos, ∀ T ∈ batch, u.txid ≠ T.txid)
    (hA : A ∈ batch)
    (hB : B ∈ generateBlockTransactions sigOk db0 tree0 batch)
    (href : ref ∈ B.inputs) (hrefA : ref.txid = A.txid) (hAB : A ≠ B) :
    ∃ pre post,
      generateBlockTransactions sigOk db0 tree0 batch = pre ++ B :: post ∧
      A ∈ pre := by
  have hsorted : ∀ T ∈ (if batch.length > 1 then
      sortTransactionsTopologically batch else batch), T ∈ batch := by
    intro T hT
    split at hT
    · exact sortTopologically_mem batch T hT
    · exact hT
  have hI0 : UtxoFromApplied batch db0 [] := by
    intro u hu T hT he
    exact absurd he (hfreshU u hu T hT)
  have hOrd0 : DepOrdered batch [] := by
    intro _ B' _ hB' _ _
    simp at hB'
  have := applyLoop_ordered sigOk batch hout hinj _ hsorted db0 tree0 []
    (by intro T h; simp at h) hI0 hOrd0
  exact this A B hA hB ⟨ref, href, hrefA⟩ hAB

/-- C7 fixture: one 10-coin UTXO funding a two-transaction chain. -/
def dbC7 : DBState := ⟨[⟨"g7", 0, "alice", 10, "unspent"⟩], []⟩

/-- The funding transaction of the C7 chain. -/
def txA7 : SignedTransaction :=
  ⟨"a7", "alice", [⟨"g7", 0⟩], [⟨"a7", 0, "bob", 9, "unspent"⟩], 1, "ph", 0, "sg"⟩

/-- The dependent transaction of the C7 chain (spends `txA7`'s output). -/
def txB7 : SignedTransaction :=
  ⟨"b7", "bob", [⟨"a7", 0⟩], [⟨"b7", 0, "carol", 8, "unspent"⟩], 1, "ph", 0, "sg"⟩

/-- C7, witness: the two-transaction chain submitted in reversed order is
sorted, applied, and the block lists `txA7` before `txB7`. -/
theorem C7_dependency_order_witness :
    ∃ pre post,
      generateBlockTransactions sigAll dbC7 SMT.empty [txB7, txA7] =
        pre ++ txB7 :: post ∧
      txA7 ∈ pre :=
  C7_dependency_order sigAll dbC7 SMT.empty [txB7, txA7] txA7 txB7 ⟨"a7", 0⟩
    (by decide) (by decide) (by decide) (by decide) (by decide) (by decide)
    (by decide) (by decide)

end Fontana
